import Mathlib

/-!
Verification of `scripts/update_dashboard_from_excel.py`.

The development shallowly embeds the script's pure core: the tolerant
numeric coercions (`parse_number`, `to_int`, `to_percent`), the
Indian-style number formatter, the ordinal-date formatter, the record
extraction/ordering/totals logic of `read_excel_data`, and the
text-substitution pipeline of `update_html` (string find/splice plus the
three fixed-shape regular expressions used with `re.sub(..., count=1)`).

Modelling conventions:
* Python `str` is modelled as Lean `String`; the substitution machinery
  works on `List Char` (`String.data`).
* Python `float` is modelled as `PyFloat`: an exact rational, or one of
  the special values `inf`, `-inf`, `nan`.  Binary double rounding is
  idealised away (rationals are kept exact); overflow of a parsed
  literal to infinity is modelled with the cutoff `2^1024`.
* Fallible Python code (raising `ValueError`/`OverflowError`) is
  modelled with `Except String`.
-/

namespace DcsDash

/-- Python ASCII whitespace, as stripped by `str.strip()`. -/
def isPySpace (c : Char) : Bool :=
  c == ' ' || c == '\t' || c == '\n' || c == '\r' || c == '\x0b' || c == '\x0c'

/-- The character list of `s.strip()`. -/
def stripList (s : List Char) : List Char :=
  ((s.dropWhile isPySpace).reverse.dropWhile isPySpace).reverse

/-- Python `str.strip()` (ASCII-whitespace idealisation). -/
def pyStrip (s : String) : String :=
  String.mk (stripList s.data)

/-- Python `text.replace(",", "")`. -/
def removeCommas (s : List Char) : List Char :=
  s.filter (fun c => c != ',')

/-- Lower-case letter or digit, the characters kept by
`re.sub(r"[^a-z0-9]", "", ...)` in `normalize_name`. -/
def isLowerAlnum (c : Char) : Bool :=
  ('a' ≤ c && c ≤ 'z') || ('0' ≤ c && c ≤ '9')

/-- `normalize_name` from the script: lower-case, then drop every
character outside `[a-z0-9]`. -/
def normalize_name (s : String) : String :=
  String.mk ((s.data.map Char.toLower).filter isLowerAlnum)

/-- `DISPLAY_NAME_MAP` from the script. -/
def DISPLAY_NAME_MAP : List (String × String) :=
  [("raikot", "Raikot"),
   ("khanna", "Khanna"),
   ("payal", "Payal"),
   ("jagraon", "Jagraon"),
   ("samrala", "Samrala"),
   ("ludhianaeast", "Ludhiana (East)"),
   ("ludhianawest", "Ludhiana (West)")]

/-- `CANONICAL_ORDER` from the script. -/
def CANONICAL_ORDER : List String :=
  ["Raikot", "Khanna", "Ludhiana (East)", "Payal", "Jagraon", "Samrala",
   "Ludhiana (West)"]

/-- `display_name` from the script: map the normalised raw name through
`DISPLAY_NAME_MAP`, defaulting to the stripped raw name. -/
def display_name (raw_name : String) : String :=
  match (DISPLAY_NAME_MAP.find? (fun p => p.1 = normalize_name raw_name)) with
  | some p => p.2
  | none => pyStrip raw_name

/-- A Python float value: an exact rational (double rounding idealised
away), or one of the specials `inf`, `-inf`, `nan`. -/
inductive PyFloat where
  | fin (q : ℚ)
  | inf
  | ninf
  | nan
deriving DecidableEq

/-- A spreadsheet cell value as seen by the script: `None`, an `int`,
a `float`, or a `str`. -/
inductive Cell where
  | none
  | int (n : Int)
  | float (f : PyFloat)
  | str (s : String)
deriving DecidableEq

/-- Reads a run of decimal digits (with PEP 515 single underscores
between digits); returns the value, the number of digits, and the rest
of the input.  A malformed underscore stops the run, leaving the
offending characters in the rest (so a full-input parser fails). -/
def readDigitsAux : Nat → Nat → List Char → Nat × Nat × List Char
  | acc, cnt, [] => (acc, cnt, [])
  | acc, cnt, c :: rest =>
    if c.isDigit then readDigitsAux (acc * 10 + (c.toNat - 48)) (cnt + 1) rest
    else if c = '_' then
      match rest with
      | d :: rest2 =>
        if d.isDigit then readDigitsAux (acc * 10 + (d.toNat - 48)) (cnt + 1) rest2
        else (acc, cnt, c :: rest)
      | [] => (acc, cnt, c :: rest)
    else (acc, cnt, c :: rest)

/-- Reads a nonempty digit run (`none` when the input does not start
with a digit). -/
def readDigits (s : List Char) : Option (Nat × Nat × List Char) :=
  match s with
  | c :: _ => if c.isDigit then some (readDigitsAux 0 0 s) else none
  | [] => none

/-- Parses an optional exponent suffix `[eE][+-]?digits` and applies it
to the mantissa; the whole rest of the input must be consumed. -/
def parseExpPart (m : ℚ) : List Char → Option ℚ
  | [] => some m
  | c :: rest =>
    if c = 'e' ∨ c = 'E' then
      let (eneg, rest2) :=
        match rest with
        | '+' :: r => (false, r)
        | '-' :: r => (true, r)
        | r => (false, r)
      match readDigits rest2 with
      | some (ev, _, []) => some (if eneg then m / ((10 ^ ev : ℕ) : ℚ) else m * ((10 ^ ev : ℕ) : ℚ))
      | _ => Option.none
    else Option.none

/-- Parses the unsigned body of a Python float literal:
`digits [. [digits]] [exp]` or `. digits [exp]`. -/
def parseFinBody (s : List Char) : Option ℚ :=
  match readDigits s with
  | some (iv, _, rest) =>
    match rest with
    | '.' :: rest2 =>
      match readDigits rest2 with
      | some (fv, fc, rest3) => parseExpPart ((iv : ℚ) + (fv : ℚ) / ((10 ^ fc : ℕ) : ℚ)) rest3
      | none => parseExpPart (iv : ℚ) rest2
    | _ => parseExpPart (iv : ℚ) rest
  | none =>
    match s with
    | '.' :: rest2 =>
      match readDigits rest2 with
      | some (fv, fc, rest3) => parseExpPart ((fv : ℚ) / ((10 ^ fc : ℕ) : ℚ)) rest3
      | none => Option.none
    | _ => Option.none

/-- Magnitude at which a parsed decimal literal overflows a double and
Python's `float(text)` returns an infinity (idealised cutoff `2^1024`,
written through `ℕ` so that it kernel-evaluates). -/
def floatOverflow : ℚ := ((2 ^ 1024 : ℕ) : ℚ)

/-- Python `float(text)`: strips whitespace, reads an optional sign,
accepts `inf`/`infinity`/`nan` case-insensitively, else a decimal
literal; `none` models a `ValueError`. -/
def pyFloatOfString (s : List Char) : Option PyFloat :=
  let t := stripList s
  let (neg, body) :=
    match t with
    | '+' :: r => (false, r)
    | '-' :: r => (true, r)
    | r => (false, r)
  let low := body.map Char.toLower
  if low = "inf".data ∨ low = "infinity".data then
    some (if neg then PyFloat.ninf else PyFloat.inf)
  else if low = "nan".data then some PyFloat.nan
  else
    match parseFinBody body with
    | some q =>
      let q := if neg then -q else q
      some (if floatOverflow ≤ q then PyFloat.inf
            else if q ≤ -floatOverflow then PyFloat.ninf
            else PyFloat.fin q)
    | none => Option.none

/-- Decimal digit characters of a rational up to `fuel` fractional
places (used only to model `str(float)` for float-typed name cells;
documented idealisation of Python's shortest-roundtrip repr). -/
def fracDigitsAux : Nat → ℚ → List Char
  | 0, _ => []
  | fuel + 1, r =>
    if r = 0 then []
    else
      let r10 := r * 10
      let d := r10.floor.toNat
      Char.ofNat (48 + d) :: fracDigitsAux fuel (r10 - (r10.floor : ℚ))

/-- Python `str` of a float (idealised: integral rationals print as
`d.0`, others with up to 17 fractional digits). -/
def pyFloatRepr : PyFloat → String
  | PyFloat.fin q =>
    let sign := if q < 0 then "-" else ""
    let a := if q < 0 then -q else q
    let ip := a.floor.toNat
    let frac := a - (a.floor : ℚ)
    if frac = 0 then sign ++ Nat.repr ip ++ ".0"
    else sign ++ Nat.repr ip ++ "." ++ String.mk (fracDigitsAux 17 frac)
  | PyFloat.inf => "inf"
  | PyFloat.ninf => "-inf"
  | PyFloat.nan => "nan"

/-- Python `str(cell)` for the cell values we model. -/
def pyStr : Cell → String
  | Cell.none => "None"
  | Cell.int n => Int.repr n
  | Cell.float f => pyFloatRepr f
  | Cell.str s => s

/-- `parse_number` from the script.  `None` is 0; `int`/`float` values
pass through `float(value)` (an `int` beyond the double range raises
`OverflowError`); text is stripped, commas removed, blank or `"-"` is 0,
and a text that `float()` rejects is 0. -/
def parse_number : Cell → Except String PyFloat
  | Cell.none => Except.ok (PyFloat.fin 0)
  | Cell.int n =>
    if floatOverflow ≤ (if (n : ℚ) < 0 then -(n : ℚ) else (n : ℚ)) then
      Except.error "int too large to convert to float"
    else Except.ok (PyFloat.fin (n : ℚ))
  | Cell.float f => Except.ok f
  | Cell.str s =>
    let text := removeCommas (stripList s.data)
    if text = [] ∨ text = ['-'] then Except.ok (PyFloat.fin 0)
    else
      match pyFloatOfString text with
      | some f => Except.ok f
      | none => Except.ok (PyFloat.fin 0)

/-- Python `round(q)`: round half to even, to an integer. -/
def pyRound (q : ℚ) : Int :=
  let f := q.floor
  let r := q - (f : ℚ)
  if r < 1 / 2 then f
  else if 1 / 2 < r then f + 1
  else if f % 2 = 0 then f else f + 1

/-- Python `round(q, 2)`: round half to even at two decimal places. -/
def round2 (q : ℚ) : ℚ :=
  (pyRound (q * 100) : ℚ) / 100

/-- `round(x, 2)` lifted to float values (`round` of `nan`/`inf` with a
digit count returns the value unchanged). -/
def round2f : PyFloat → PyFloat
  | PyFloat.fin q => PyFloat.fin (round2 q)
  | f => f

/-- `to_int` from the script: `int(round(parse_number(value)))`;
`round` raises `ValueError` on `nan` and `OverflowError` on an
infinity. -/
def to_int (value : Cell) : Except String Int := do
  let f ← parse_number value
  match f with
  | PyFloat.fin q => Except.ok (pyRound q)
  | PyFloat.nan => Except.error "cannot convert float NaN to integer"
  | PyFloat.inf => Except.error "cannot convert float infinity to integer"
  | PyFloat.ninf => Except.error "cannot convert float infinity to integer"

/-- `to_percent` from the script: `round(parse_number(value), 2)`. -/
def to_percent (value : Cell) : Except String PyFloat := do
  let f ← parse_number value
  Except.ok (round2f f)

/-- Fuelled worker for `partsLoop` (the fuel bounds the number of loop
iterations; structural recursion keeps the definition
kernel-evaluable). -/
def partsLoopAux : Nat → List Char → List (List Char)
  | 0, _ => []
  | fuel + 1, head =>
    if 2 < head.length then
      head.drop (head.length - 2) :: partsLoopAux fuel (head.take (head.length - 2))
    else if head = [] then [] else [head]

/-- The `while len(head) > 2` loop of `format_indian_number`: the list
`parts` it builds (two-character groups taken from the right, then the
one- or two-character remnant), in Python's append order. -/
def partsLoop (head : List Char) : List (List Char) :=
  partsLoopAux head.length head

/-- `format_indian_number` from the script, on integer inputs (the
Python function first applies `int(round(value))`, the identity on an
`int`). -/
def format_indian_number (value : Int) : String :=
  let n := value
  let sign := if n < 0 then "-" else ""
  let s := (Nat.repr n.natAbs).data
  if s.length ≤ 3 then sign ++ String.mk s
  else
    let tail := s.drop (s.length - 3)
    let head := s.take (s.length - 3)
    sign ++ String.mk (List.intercalate [','] (partsLoop head).reverse)
      ++ "," ++ String.mk tail

/-- `ordinal` from the script: day number plus English ordinal
suffix. -/
def ordinal (n : Int) : String :=
  let suffix :=
    if 10 ≤ n % 100 ∧ n % 100 ≤ 20 then "th"
    else if n % 10 = 1 then "st"
    else if n % 10 = 2 then "nd"
    else if n % 10 = 3 then "rd"
    else "th"
  Int.repr n ++ suffix

/-- A calendar date as the script uses it (`datetime.date`). -/
structure PyDate where
  year : Nat
  month : Nat
  day : Nat
deriving DecidableEq

/-- Full month names, for `strftime("%B")`. -/
def monthName (m : Nat) : String :=
  ["January", "February", "March", "April", "May", "June", "July",
   "August", "September", "October", "November", "December"].getD (m - 1) ""

/-- Abbreviated month names, for `strftime("%b")`. -/
def monthAbbrev (m : Nat) : String :=
  ["Jan", "Feb", "Mar", "Apr", "May", "Jun", "Jul", "Aug", "Sep", "Oct",
   "Nov", "Dec"].getD (m - 1) ""

/-- `format_as_of_date` from the script: `"{ordinal(day)} {%B %Y}"`. -/
def format_as_of_date (d : PyDate) : String :=
  ordinal (d.day : Int) ++ " " ++ monthName d.month ++ " " ++ Nat.repr d.year

/-- `format_surveyed_header_date` from the script: `"{d}-{m}-{yy}"`
with the last two characters of the year string. -/
def format_surveyed_header_date (d : PyDate) : String :=
  let ys := (Nat.repr d.year).data
  Nat.repr d.day ++ "-" ++ Nat.repr d.month ++ "-"
    ++ String.mk (ys.drop (ys.length - 2))

/-- `format_daily_chart_label` from the script: `"{ordinal(day)} {%b}"`. -/
def format_daily_chart_label (d : PyDate) : String :=
  ordinal (d.day : Int) ++ " " ++ monthAbbrev d.month

/-- Comparison `f >= c` on a float value (`nan >= c` is false). -/
def pyGe (f : PyFloat) (c : ℚ) : Bool :=
  match f with
  | PyFloat.fin q => decide (c ≤ q)
  | PyFloat.inf => true
  | PyFloat.ninf => false
  | PyFloat.nan => false

/-- `survey_bar_class` from the script. -/
def survey_bar_class (percent : PyFloat) : String :=
  if pyGe percent 10 then "high" else if pyGe percent 7 then "medium" else "low"

/-- `approval_bar_class` from the script. -/
def approval_bar_class (percent : PyFloat) : String :=
  if pyGe percent 15 then "high" else if pyGe percent 10 then "medium" else "low"

/-- `survey_badge_class` from the script. -/
def survey_badge_class (percent : PyFloat) : String :=
  if pyGe percent 10 then "success" else if pyGe percent 7 then "warning" else "danger"

/-- `approval_badge_class` from the script. -/
def approval_badge_class (percent : PyFloat) : String :=
  if pyGe percent 20 then "success" else if pyGe percent 10 then "warning" else "danger"

/-- Two-digit zero-padded decimal string. -/
def pad2 (k : Nat) : String :=
  if k < 10 then "0" ++ Nat.repr k else Nat.repr k

/-- Python `f"{x:.2f}"` on a float value (idealised as round half to
even at two decimals of the exact rational; exact on the two-decimal
values the pipeline produces). -/
def fmt2 : PyFloat → String
  | PyFloat.fin q =>
    let m := (pyRound ((if q < 0 then -q else q) * 100)).toNat
    (if q < 0 then "-" else "") ++ Nat.repr (m / 100) ++ "." ++ pad2 (m % 100)
  | PyFloat.inf => "inf"
  | PyFloat.ninf => "-inf"
  | PyFloat.nan => "nan"

/-- One subdivision's metrics, as built by `read_excel_data`
(`row_data` / `totals` dictionaries). -/
structure Record where
  name : String
  uploaded_villages : Int
  uploaded_plots : Int
  daily_target : Int
  surveyed_today : Int
  total_surveyed : Int
  survey_percent : PyFloat
  approved : Int
  approval_percent : PyFloat
  total_surveyors : Int
  in_field : Int
deriving DecidableEq

/-- The data snapshot `read_excel_data` hands to `update_html`. -/
structure DashData where
  report_date : PyDate
  subdivisions : List Record
  totals : Record
deriving DecidableEq

/-- `build_stats_html` from the script (the f-string with the four stat
cards, interpolations filled in). -/
def build_stats_html (totals : Record) : String :=
  "    <div class=\"stats-grid\">\n"
  ++ "        <div class=\"stat-card\">\n"
  ++ "            <div class=\"stat-label\">Total Uploaded Plots</div>\n"
  ++ "            <div class=\"stat-value\">" ++ format_indian_number totals.uploaded_plots ++ "</div>\n"
  ++ "            <div class=\"stat-subtext\">Across all sub-divisions</div>\n"
  ++ "        </div>\n"
  ++ "        <div class=\"stat-card success\">\n"
  ++ "            <div class=\"stat-label\">Total Surveyed</div>\n"
  ++ "            <div class=\"stat-value\">" ++ format_indian_number totals.total_surveyed ++ "</div>\n"
  ++ "            <div class=\"stat-subtext\">" ++ fmt2 totals.survey_percent ++ "% completion</div>\n"
  ++ "        </div>\n"
  ++ "        <div class=\"stat-card warning\">\n"
  ++ "            <div class=\"stat-label\">Approved by Supervisor</div>\n"
  ++ "            <div class=\"stat-value\">" ++ format_indian_number totals.approved ++ "</div>\n"
  ++ "            <div class=\"stat-subtext\">" ++ fmt2 totals.approval_percent ++ "% of surveyed</div>\n"
  ++ "        </div>\n"
  ++ "        <div class=\"stat-card danger\">\n"
  ++ "            <div class=\"stat-label\">Daily Target Required</div>\n"
  ++ "            <div class=\"stat-value\">" ++ format_indian_number totals.daily_target ++ "</div>\n"
  ++ "            <div class=\"stat-subtext\">To complete by 31st March</div>\n"
  ++ "        </div>\n"
  ++ "    </div>"

/-- One block of `build_subdivision_cards_html` (the per-row f-string). -/
def cardBlock (row : Record) : String :=
  let survey_class := survey_bar_class row.survey_percent
  let approval_class := approval_bar_class row.approval_percent
  let sp := fmt2 row.survey_percent
  let ap := fmt2 row.approval_percent
  "        <div class=\"subdivision-card\">\n"
  ++ "            <h3>" ++ row.name ++ "</h3>\n"
  ++ "            <div class=\"progress-section\">\n"
  ++ "                <div class=\"progress-label\">\n"
  ++ "                    <span>Survey Progress</span>\n"
  ++ "                    <span><strong>" ++ sp ++ "%</strong></span>\n"
  ++ "                </div>\n"
  ++ "                <div class=\"progress-bar\">\n"
  ++ "                    <div class=\"progress-fill " ++ survey_class ++ "\" style=\"width: " ++ sp ++ "%;\"></div>\n"
  ++ "                </div>\n"
  ++ "            </div>\n"
  ++ "            <div class=\"progress-section\">\n"
  ++ "                <div class=\"progress-label\">\n"
  ++ "                    <span>Approval Rate</span>\n"
  ++ "                    <span><strong>" ++ ap ++ "%</strong></span>\n"
  ++ "                </div>\n"
  ++ "                <div class=\"progress-bar\">\n"
  ++ "                    <div class=\"progress-fill " ++ approval_class ++ "\" style=\"width: " ++ ap ++ "%;\"></div>\n"
  ++ "                </div>\n"
  ++ "            </div>\n"
  ++ "            <div class=\"detail-grid\">\n"
  ++ "                <div class=\"detail-item\">\n"
  ++ "                    <span class=\"detail-label\">Total Plots</span>\n"
  ++ "                    <span class=\"detail-value\">" ++ format_indian_number row.uploaded_plots ++ "</span>\n"
  ++ "                </div>\n"
  ++ "                <div class=\"detail-item\">\n"
  ++ "                    <span class=\"detail-label\">Surveyed Plots</span>\n"
  ++ "                    <span class=\"detail-value\">" ++ format_indian_number row.total_surveyed ++ "</span>\n"
  ++ "                </div>\n"
  ++ "                <div class=\"detail-item\">\n"
  ++ "                    <span class=\"detail-label\">Approved</span>\n"
  ++ "                    <span class=\"detail-value\">" ++ format_indian_number row.approved ++ "</span>\n"
  ++ "                </div>\n"
  ++ "                <div class=\"detail-item\">\n"
  ++ "                    <span class=\"detail-label\">Surveyors</span>\n"
  ++ "                    <span class=\"detail-value\">" ++ Int.repr row.total_surveyors ++ "</span>\n"
  ++ "                </div>\n"
  ++ "                <div class=\"detail-item\">\n"
  ++ "                    <span class=\"detail-label\">In Field</span>\n"
  ++ "                    <span class=\"detail-value\">" ++ Int.repr row.in_field ++ "</span>\n"
  ++ "                </div>\n"
  ++ "            </div>\n"
  ++ "        </div>"

/-- `build_subdivision_cards_html` from the script: header div, one
block per row, closing div, joined with newlines. -/
def build_subdivision_cards_html (rows : List Record) : String :=
  String.intercalate "\n"
    (("    <div class=\"subdivision-grid\">" : String)
      :: rows.map cardBlock ++ ["    </div>"])

/-- One `<tr>` block of `build_table_body_html` for a subdivision row. -/
def trBlock (row : Record) : String :=
  let survey_badge := survey_badge_class row.survey_percent
  let approval_badge := approval_badge_class row.approval_percent
  "                <tr>\n"
  ++ "                    <td><strong>" ++ row.name ++ "</strong></td>\n"
  ++ "                    <td>" ++ Int.repr row.uploaded_villages ++ "</td>\n"
  ++ "                    <td>" ++ format_indian_number row.uploaded_plots ++ "</td>\n"
  ++ "                    <td>" ++ format_indian_number row.daily_target ++ "</td>\n"
  ++ "                    <td>" ++ format_indian_number row.surveyed_today ++ "</td>\n"
  ++ "                    <td>" ++ format_indian_number row.total_surveyed ++ "</td>\n"
  ++ "                    <td><span class=\"badge " ++ survey_badge ++ "\">" ++ fmt2 row.survey_percent ++ "%</span></td>\n"
  ++ "                    <td>" ++ format_indian_number row.approved ++ "</td>\n"
  ++ "                    <td><span class=\"badge " ++ approval_badge ++ "\">" ++ fmt2 row.approval_percent ++ "%</span></td>\n"
  ++ "                    <td>" ++ Int.repr row.total_surveyors ++ "</td>\n"
  ++ "                    <td>" ++ Int.repr row.in_field ++ "</td>\n"
  ++ "                </tr>"

/-- The totals `<tr>` block of `build_table_body_html`. -/
def trTotalsBlock (totals : Record) : String :=
  "                <tr>\n"
  ++ "                    <td><strong>Total</strong></td>\n"
  ++ "                    <td><strong>" ++ Int.repr totals.uploaded_villages ++ "</strong></td>\n"
  ++ "                    <td><strong>" ++ format_indian_number totals.uploaded_plots ++ "</strong></td>\n"
  ++ "                    <td><strong>" ++ format_indian_number totals.daily_target ++ "</strong></td>\n"
  ++ "                    <td><strong>" ++ format_indian_number totals.surveyed_today ++ "</strong></td>\n"
  ++ "                    <td><strong>" ++ format_indian_number totals.total_surveyed ++ "</strong></td>\n"
  ++ "                    <td><span class=\"badge " ++ survey_badge_class totals.survey_percent ++ "\">" ++ fmt2 totals.survey_percent ++ "%</span></td>\n"
  ++ "                    <td><strong>" ++ format_indian_number totals.approved ++ "</strong></td>\n"
  ++ "                    <td><span class=\"badge " ++ approval_badge_class totals.approval_percent ++ "\">" ++ fmt2 totals.approval_percent ++ "%</span></td>\n"
  ++ "                    <td><strong>" ++ Int.repr totals.total_surveyors ++ "</strong></td>\n"
  ++ "                    <td><strong>" ++ Int.repr totals.in_field ++ "</strong></td>\n"
  ++ "                </tr>"

/-- `build_table_body_html` from the script: `<tbody>` line, a `<tr>`
block per row, the totals block, `</tbody>` line, joined with
newlines. -/
def build_table_body_html (rows : List Record) (totals : Record) : String :=
  String.intercalate "\n"
    (("            <tbody>" : String)
      :: (rows.map trBlock ++ [trTotalsBlock totals, "            </tbody>"]))

/-- Scanning worker for `firstOcc`: `i` is the absolute position of
the current suffix `s`. -/
def firstOccAux (m : List Char) : List Char → Nat → Option Nat
  | s, i =>
    if m.isPrefixOf s then some i
    else
      match s with
      | [] => Option.none
      | _ :: t => firstOccAux m t (i + 1)

/-- Index of the first occurrence of `m` in a character list, Python's
`text.find(m)` (`none` for -1). -/
def firstOcc (m s : List Char) : Option Nat :=
  firstOccAux m s 0

/-- Python `text.find(m, i)`: first occurrence of `m` at or after
position `i` (absolute index). -/
def firstOccFrom (m s : List Char) (i : Nat) : Option Nat :=
  (firstOcc m (s.drop i)).map (· + i)

/-- The characters of `s` from position `i` (inclusive) to `j`
(exclusive), Python's `s[i:j]` for `i ≤ j`. -/
def slice (s : List Char) (i j : Nat) : List Char :=
  (s.drop i).take (j - i)

/-- `replace_between` from the script: splice `repl` over the text from
the first occurrence of `startM` up to (excluding) the first following
occurrence of `endM`; error when either marker is missing. -/
def replace_between (text startM endM repl : List Char) :
    Except String (List Char) :=
  match firstOcc startM text with
  | Option.none =>
    Except.error ("Start marker not found: " ++ String.mk startM)
  | some start_idx =>
    match firstOccFrom endM text start_idx with
    | Option.none =>
      Except.error ("End marker not found after start marker: " ++ String.mk endM)
    | some end_idx =>
      Except.ok (text.take start_idx ++ repl ++ text.drop end_idx)

/-- The shape of every regular expression the script uses: a literal
prefix, a repeated character class `[^excl]` (`minOne` selects `+` over
`*`), and a literal suffix. -/
structure ReSeg where
  pre : List Char
  excl : Char
  minOne : Bool
  post : List Char

/-- Largest `k ≤ fuel` with `lo ≤ k` such that `post` is a prefix of
`rest.drop k` (the backtracking search of the regex engine: the greedy
run is shortened until the literal suffix matches). -/
def greedyDown (post rest : List Char) (lo : Nat) : Nat → Option Nat
  | 0 => if lo = 0 ∧ post.isPrefixOf rest then some 0 else Option.none
  | k + 1 =>
    if lo ≤ k + 1 ∧ post.isPrefixOf (rest.drop (k + 1)) then some (k + 1)
    else greedyDown post rest lo k

/-- Length of the match of pattern `p` anchored at the head of `s`
(`none` when `p` does not match there). -/
def matchLenAt (p : ReSeg) (s : List Char) : Option Nat :=
  if p.pre.isPrefixOf s then
    let rest := s.drop p.pre.length
    let maxRun := (rest.takeWhile (fun c => c != p.excl)).length
    let lo := if p.minOne then 1 else 0
    (greedyDown p.post rest lo maxRun).map
      (fun k => p.pre.length + k + p.post.length)
  else Option.none

/-- Scanning worker for `reFind`: `i` is the absolute position of the
current suffix `s`. -/
def reFindAux (p : ReSeg) : List Char → Nat → Option (Nat × Nat)
  | s, i =>
    match matchLenAt p s with
    | some len => some (i, len)
    | Option.none =>
      match s with
      | [] => Option.none
      | _ :: t => reFindAux p t (i + 1)

/-- Leftmost match of pattern `p` in `s`: start position and length
(`re.search` semantics for the shapes in `ReSeg`). -/
def reFind (p : ReSeg) (s : List Char) : Option (Nat × Nat) :=
  reFindAux p s 0

/-- `re.sub(p, repl, s, count=1)` for a `ReSeg` pattern: replace the
leftmost match, or return `s` unchanged when there is none. -/
def reSubOnce (p : ReSeg) (repl s : List Char) : List Char :=
  match reFind p s with
  | Option.none => s
  | some (i, len) => s.take i ++ repl ++ s.drop (i + len)

/-- The pattern `const {name} = \[[^\]]*];` of `replace_array_const`. -/
def arrayPat (constName : String) : ReSeg :=
  { pre := ("const " ++ constName ++ " = [").data
    excl := ']'
    minOne := false
    post := "];".data }

/-- `replace_array_const` from the script: error when the declaration
pattern is absent, else substitute its single leftmost match. -/
def replace_array_const (text : List Char) (constName valuesJs : String) :
    Except String (List Char) :=
  if (reFind (arrayPat constName) text).isSome then
    Except.ok (reSubOnce (arrayPat constName)
      ("const " ++ constName ++ " = [" ++ valuesJs ++ "];").data text)
  else Except.error ("JS array constant not found: " ++ constName)

/-- The pattern `<p>Ludhiana District \| Data as of [^<]+</p>`. -/
def asOfPat : ReSeg :=
  { pre := "<p>Ludhiana District | Data as of ".data
    excl := '<'
    minOne := true
    post := "</p>".data }

/-- The pattern `<th>Surveyed \([^)]+\)</th>`. -/
def hdrPat : ReSeg :=
  { pre := "<th>Surveyed (".data
    excl := ')'
    minOne := true
    post := ")</th>".data }

/-- The pattern `label: 'Plots Surveyed \([^']+\)'`. -/
def lblPat : ReSeg :=
  { pre := "label: 'Plots Surveyed (".data
    excl := '\''
    minOne := true
    post := ")'".data }

/-- Start marker of the stats-grid region in `update_html`. -/
def statsStart : String := "    <div class=\"stats-grid\">"

/-- End marker of the stats-grid region in `update_html`. -/
def statsEnd : String :=
  "\n\n    <h2 style=\"margin: 30px 0 20px 0; padding-left: 10px;\">"

/-- Start marker of the subdivision-cards region in `update_html`. -/
def cardsStart : String := "    <div class=\"subdivision-grid\">"

/-- End marker of the subdivision-cards region in `update_html`. -/
def cardsEnd : String :=
  "\n\n    <!-- Charts: survey, approval, surveyors, daily progress -->"

/-- The `<tbody>` open marker searched by `update_html`. -/
def tbodyOpen : String := "            <tbody>"

/-- The `</tbody>` close marker searched by `update_html`. -/
def tbodyClose : String := "            </tbody>"

/-- The `<tbody>` splice of `update_html`: find the open marker, find
the close marker after it, and replace everything through the end of
the close marker with `tbody_html`. -/
def tbodySplice (html tbody_html : List Char) : Except String (List Char) :=
  match firstOcc tbodyOpen.data html with
  | Option.none => Except.error "Could not find <tbody> in table."
  | some tbody_start =>
    match firstOccFrom tbodyClose.data html tbody_start with
    | Option.none => Except.error "Could not find </tbody> in table."
    | some close_start =>
      let tbody_end := close_start + tbodyClose.data.length
      Except.ok (html.take tbody_start ++ tbody_html ++ html.drop tbody_end)

/-- `update_html` from the script, as a pure transformation of the
document's contents: the sequence of substitutions, in source order,
each failing step aborting the run. -/
def update_html (html : List Char) (data : DashData) :
    Except String (List Char) := do
  let report_date := data.report_date
  let as_of := format_as_of_date report_date
  let surveyed_header := format_surveyed_header_date report_date
  let daily_label := format_daily_chart_label report_date
  let rows := data.subdivisions
  let totals := data.totals
  let stats_html := build_stats_html totals
  let cards_html := build_subdivision_cards_html rows
  let tbody_html := build_table_body_html rows totals
  let html := reSubOnce asOfPat
    ("<p>Ludhiana District | Data as of " ++ as_of ++ "</p>").data html
  let html ← replace_between html statsStart.data statsEnd.data stats_html.data
  let html ← replace_between html cardsStart.data cardsEnd.data cards_html.data
  let html := reSubOnce hdrPat
    ("<th>Surveyed (" ++ surveyed_header ++ ")</th>").data html
  let html ← tbodySplice html tbody_html.data
  let html ← replace_array_const html "subdivisions"
    (String.intercalate ", " (rows.map (fun r => "'" ++ r.name ++ "'")))
  let html ← replace_array_const html "surveyPercentages"
    (String.intercalate ", " (rows.map (fun r => fmt2 r.survey_percent)))
  let html ← replace_array_const html "approvalPercentages"
    (String.intercalate ", " (rows.map (fun r => fmt2 r.approval_percent)))
  let html ← replace_array_const html "totalSurveyors"
    (String.intercalate ", " (rows.map (fun r => Int.repr r.total_surveyors)))
  let html ← replace_array_const html "inField"
    (String.intercalate ", " (rows.map (fun r => Int.repr r.in_field)))
  let html ← replace_array_const html "dailyProgress"
    (String.intercalate ", " (rows.map (fun r => Int.repr r.surveyed_today)))
  let html := reSubOnce lblPat
    ("label: 'Plots Surveyed (" ++ daily_label ++ ")'").data html
  Except.ok html

/-- The file-level effect of `update_html`: the document is read once,
transformed in memory, and written back exactly once on success; the
pair is (final file contents, number of writes performed). -/
def run_update (fileContents : List Char) (data : DashData) :
    List Char × Nat :=
  match update_html fileContents data with
  | Except.ok h => (h, 1)
  | Except.error _ => (fileContents, 0)

/-- A data row of the spreadsheet after column mapping: the name cell
and the ten mapped numeric cells (the script reads them by the column
indices computed by `map_columns`). -/
structure RawRow where
  name_cell : Cell
  uploaded_villages : Cell
  uploaded_plots : Cell
  daily_target : Cell
  surveyed_today : Cell
  total_surveyed : Cell
  survey_percent : Cell
  approved : Cell
  approval_percent : Cell
  total_surveyors : Cell
  in_field : Cell
deriving DecidableEq

/-- `str(name_cell).strip()`, the `raw_name` of the extraction loop. -/
def rawNameOf (row : RawRow) : String :=
  pyStrip (pyStr row.name_cell)

/-- The skip test of the extraction loop: `name_cell is None or
str(name_cell).strip() == ""`. -/
def skipRow (row : RawRow) : Prop :=
  row.name_cell = Cell.none ∨ rawNameOf row = ""

instance (row : RawRow) : Decidable (skipRow row) := by
  unfold skipRow
  infer_instance

/-- The `row_data` dictionary built for one data row (any failing
numeric coercion aborts the run, as in Python). -/
def buildRecord (row : RawRow) : Except String Record := do
  let uv ← to_int row.uploaded_villages
  let up ← to_int row.uploaded_plots
  let dt ← to_int row.daily_target
  let st ← to_int row.surveyed_today
  let ts ← to_int row.total_surveyed
  let sp ← to_percent row.survey_percent
  let ap ← to_int row.approved
  let app ← to_percent row.approval_percent
  let tsv ← to_int row.total_surveyors
  let inf ← to_int row.in_field
  Except.ok
    { name := display_name (rawNameOf row)
      uploaded_villages := uv
      uploaded_plots := up
      daily_target := dt
      surveyed_today := st
      total_surveyed := ts
      survey_percent := sp
      approved := ap
      approval_percent := app
      total_surveyors := tsv
      in_field := inf }

/-- The extraction loop over the data rows: skipped rows are dropped, a
row whose normalised name is `"total"` becomes the totals record
(last one wins), every other row is appended to the subdivision
list. -/
def extractLoop : List RawRow → List Record × Option Record →
    Except String (List Record × Option Record)
  | [], acc => Except.ok acc
  | row :: rest, (subs, tot) =>
    if skipRow row then extractLoop rest (subs, tot)
    else do
      let rd ← buildRecord row
      if normalize_name (rawNameOf row) = "total" then
        extractLoop rest (subs, some rd)
      else
        extractLoop rest (subs ++ [rd], tot)

/-- Overwrite-or-append insertion into an association list: the model
of one `dict` write `by_name[row["name"]] = row`. -/
def dictInsert (m : List (String × Record)) (k : String) (v : Record) :
    List (String × Record) :=
  if m.any (fun p => p.1 = k) then
    m.map (fun p => if p.1 = k then (k, v) else p)
  else m ++ [(k, v)]

/-- Association-list lookup, the model of `by_name[name]`. -/
def dictGet (m : List (String × Record)) (k : String) : Option Record :=
  (m.find? (fun p => p.1 = k)).map (fun p => p.2)

/-- `by_name = {row["name"]: row for row in subdivisions}`: fold the
rows into a name-keyed mapping, later rows overwriting earlier ones. -/
def buildByName (subs : List Record) : List (String × Record) :=
  subs.foldl (fun m r => dictInsert m r.name r) []

/-- `ordered = [by_name[name] for name in CANONICAL_ORDER if name in
by_name]`. -/
def canonicalPart (subs : List Record) : List Record :=
  CANONICAL_ORDER.filterMap (fun nm => dictGet (buildByName subs) nm)

/-- `extras = [row for row in subdivisions if row["name"] not in
CANONICAL_ORDER]`. -/
def extrasOf (subs : List Record) : List Record :=
  subs.filter (fun r => decide (r.name ∉ CANONICAL_ORDER))

/-- `extras.sort(key=lambda x: x["name"])`: a stable sort by name
(Python's sort is stable; any stable sort by a total preorder computes
the same list). -/
def sortExtras (l : List Record) : List Record :=
  l.mergeSort (fun a b => decide (a.name ≤ b.name))

/-- Lines 290-294 of the script: canonical part first, then the extras
sorted by name. -/
def reorder (subs : List Record) : List Record :=
  canonicalPart subs ++ sortExtras (extrasOf subs)

/-- Lines 296-309 of the script: the totals record computed by
field-wise summation when no `"total"` row was present, with the two
percentages recomputed from the sums (division by zero guarded to
`0.0`). -/
def computeTotals (subs : List Record) : Record :=
  let uv := (subs.map (fun r => r.uploaded_villages)).sum
  let up := (subs.map (fun r => r.uploaded_plots)).sum
  let dt := (subs.map (fun r => r.daily_target)).sum
  let st := (subs.map (fun r => r.surveyed_today)).sum
  let ts := (subs.map (fun r => r.total_surveyed)).sum
  let ap := (subs.map (fun r => r.approved)).sum
  let tsv := (subs.map (fun r => r.total_surveyors)).sum
  let inf := (subs.map (fun r => r.in_field)).sum
  { name := "Total"
    uploaded_villages := uv
    uploaded_plots := up
    daily_target := dt
    surveyed_today := st
    total_surveyed := ts
    survey_percent :=
      if up ≠ 0 then PyFloat.fin (round2 ((ts : ℚ) / (up : ℚ) * 100))
      else PyFloat.fin 0
    approved := ap
    approval_percent :=
      if ts ≠ 0 then PyFloat.fin (round2 ((ap : ℚ) / (ts : ℚ) * 100))
      else PyFloat.fin 0
    total_surveyors := tsv
    in_field := inf }

/-- The record-level part of `read_excel_data` (after header detection
and column mapping): run the extraction loop, fail on zero subdivision
rows, reorder, and fill in the totals when no `"total"` row was
seen. -/
def read_excel_records (rows : List RawRow) :
    Except String (List Record × Record) := do
  let (subs, tot) ← extractLoop rows ([], Option.none)
  if subs = [] then
    Except.error "No subdivision rows found in Excel data."
  else
    let subs := reorder subs
    let totals :=
      match tot with
      | some t => t
      | Option.none => computeTotals subs
    Except.ok (subs, totals)

/-- Decidable equality for `Except` results (used to state and decide
facts about run outcomes). -/
instance instDecEqExcept {ε α : Type} [DecidableEq ε] [DecidableEq α] :
    DecidableEq (Except ε α)
  | Except.ok a, Except.ok b =>
    if h : a = b then Decidable.isTrue (by rw [h])
    else Decidable.isFalse (by simp [h])
  | Except.error a, Except.error b =>
    if h : a = b then Decidable.isTrue (by rw [h])
    else Decidable.isFalse (by simp [h])
  | Except.ok _, Except.error _ => Decidable.isFalse (by simp)
  | Except.error _, Except.ok _ => Decidable.isFalse (by simp)

/-- Whether a modelled Python computation finished without raising. -/
def isOk {ε α : Type} : Except ε α → Bool
  | Except.ok _ => true
  | Except.error _ => false

/-- A record with all-zero metrics, used by concrete run instances. -/
def zeroRecord : Record :=
  { name := "Total"
    uploaded_villages := 0
    uploaded_plots := 0
    daily_target := 0
    surveyed_today := 0
    total_surveyed := 0
    survey_percent := PyFloat.fin 0
    approved := 0
    approval_percent := PyFloat.fin 0
    total_surveyors := 0
    in_field := 0 }

/-- Data snapshot with no subdivisions and zero totals, used by
concrete run instances. -/
def emptyDash : DashData :=
  { report_date := { year := 2024, month := 1, day := 1 }
    subdivisions := []
    totals := zeroRecord }

/-- First of two records sharing the display name "Raikot", used by
concrete duplicate-name instances. -/
def dupA : Record :=
  { zeroRecord with name := "Raikot", uploaded_plots := 1 }

/-- Second of two records sharing the display name "Raikot", used by
concrete duplicate-name instances. -/
def dupB : Record :=
  { zeroRecord with name := "Raikot", uploaded_plots := 2 }

/-- Grouping described by the specification: split a digit string into
two-character groups from the right, the leftmost group holding one or
two characters. -/
def pairsFromRight (s : List Char) : List (List Char) :=
  if _h : 2 < s.length then
    pairsFromRight (s.take (s.length - 2)) ++ [s.drop (s.length - 2)]
  else if s = [] then [] else [s]
termination_by s.length
decreasing_by
  simp only [List.length_take]
  omega

/-- The grouping the claim describes for `format_indian_number`: the
last three digits form one group, the remaining digits are grouped in
pairs from the right, groups joined with commas. -/
def indianGroupingClaim (s : List Char) : List Char :=
  if s.length ≤ 3 then s
  else
    List.intercalate [','] (pairsFromRight (s.take (s.length - 3)))
      ++ [','] ++ s.drop (s.length - 3)

/-- A concrete data row ("Raikot") used to witness the computed-totals
theorem. -/
def c3row1 : RawRow :=
  { name_cell := Cell.str "Raikot"
    uploaded_villages := Cell.int 2
    uploaded_plots := Cell.int 500
    daily_target := Cell.int 50
    surveyed_today := Cell.int 10
    total_surveyed := Cell.int 100
    survey_percent := Cell.float (PyFloat.fin 20)
    approved := Cell.int 50
    approval_percent := Cell.float (PyFloat.fin 50)
    total_surveyors := Cell.int 5
    in_field := Cell.int 3 }

/-- A second concrete data row ("Jagraon", with a string numeric cell
and blank/dash percent cells) used to witness the computed-totals
theorem. -/
def c3row2 : RawRow :=
  { name_cell := Cell.str " Jagraon "
    uploaded_villages := Cell.int 1
    uploaded_plots := Cell.str "300"
    daily_target := Cell.int 30
    surveyed_today := Cell.int 5
    total_surveyed := Cell.int 60
    survey_percent := Cell.none
    approved := Cell.int 30
    approval_percent := Cell.str "-"
    total_surveyors := Cell.int 4
    in_field := Cell.int 2 }

/-- The record extracted from `c3row1`. -/
def c3raikot : Record :=
  { name := "Raikot"
    uploaded_villages := 2
    uploaded_plots := 500
    daily_target := 50
    surveyed_today := 10
    total_surveyed := 100
    survey_percent := PyFloat.fin 20
    approved := 50
    approval_percent := PyFloat.fin 50
    total_surveyors := 5
    in_field := 3 }

/-- The record extracted from `c3row2`. -/
def c3jagraon : Record :=
  { name := "Jagraon"
    uploaded_villages := 1
    uploaded_plots := 300
    daily_target := 30
    surveyed_today := 5
    total_surveyed := 60
    survey_percent := PyFloat.fin 0
    approved := 30
    approval_percent := PyFloat.fin 0
    total_surveyors := 4
    in_field := 2 }

/-- The subdivision records in extraction order for `[c3row2, c3row1]`. -/
def c3subs0 : List Record := [c3jagraon, c3raikot]

/-- The subdivision records after reordering (canonical order puts
Raikot first). -/
def c3subs : List Record := [c3raikot, c3jagraon]

/-- The totals record computed for `c3subs`. -/
def c3totals : Record :=
  { name := "Total"
    uploaded_villages := 3
    uploaded_plots := 800
    daily_target := 80
    surveyed_today := 15
    total_surveyed := 160
    survey_percent := PyFloat.fin 20
    approved := 80
    approval_percent := PyFloat.fin 50
    total_surveyors := 9
    in_field := 5 }

/-- A record whose name contains "];", the closing token of the script
array-constant pattern (obtainable from a spreadsheet name cell). -/
def c4evil : Record :=
  { zeroRecord with name := "A];B" }

/-- The data snapshot used by the idempotence counterexample. -/
def c4data : DashData :=
  { report_date := { year := 2024, month := 1, day := 1 }
    subdivisions := [c4evil]
    totals := zeroRecord }

/-- A template document carrying every anchor `update_html` needs. -/
def c4doc : List Char :=
  ("const subdivisions = [];\n"
   ++ "const surveyPercentages = [];\n"
   ++ "const approvalPercentages = [];\n"
   ++ "const totalSurveyors = [];\n"
   ++ "const inField = [];\n"
   ++ "const dailyProgress = [];\n"
   ++ "<p>Ludhiana District | Data as of x</p>\n"
   ++ "<th>Surveyed (x)</th>\n"
   ++ "label: 'Plots Surveyed (x)'\n"
   ++ "            <tbody>\n            </tbody>\n"
   ++ "    <div class=\"stats-grid\">\n\n"
   ++ "    <h2 style=\"margin: 30px 0 20px 0; padding-left: 10px;\">\n"
   ++ "    <div class=\"subdivision-grid\">\n\n"
   ++ "    <!-- Charts: survey, approval, surveyors, daily progress -->\n").data

/-- Document state after the as-of-date substitution. -/
def c4d1 : List Char :=
  c4doc.take 160
    ++ ("<p>Ludhiana District | Data as of "
      ++ format_as_of_date c4data.report_date ++ "</p>").data
    ++ c4doc.drop (160 + 39)

/-- Document state after the stats-grid replacement. -/
def c4d2 : List Char :=
  c4d1.take 306 ++ (build_stats_html c4data.totals).data ++ c4d1.drop 334

/-- Document state after the subdivision-cards replacement. -/
def c4d3 : List Char :=
  c4d2.take 1305 ++ (build_subdivision_cards_html c4data.subdivisions).data ++ c4d2.drop 1339

/-- Document state after the table-header-date substitution. -/
def c4d4 : List Char :=
  c4d3.take 215
    ++ ("<th>Surveyed ("
      ++ format_surveyed_header_date c4data.report_date ++ ")</th>").data
    ++ c4d3.drop (215 + 21)

/-- Document state after the table-body splice. -/
def c4d5 : List Char :=
  c4d4.take 270 ++ (build_table_body_html c4data.subdivisions c4data.totals).data
    ++ c4d4.drop (290 + tbodyClose.data.length)

/-- Document state after the subdivisions array-constant replacement. -/
def c4d6 : List Char :=
  c4d5.take 0
    ++ ("const " ++ "subdivisions" ++ " = ["
      ++ String.intercalate ", "
        (c4data.subdivisions.map (fun r => "'" ++ r.name ++ "'")) ++ "];").data
    ++ c4d5.drop (0 + 24)

/-- Document state after the surveyPercentages array-constant replacement. -/
def c4d7 : List Char :=
  c4d6.take 31
    ++ ("const " ++ "surveyPercentages" ++ " = ["
      ++ String.intercalate ", "
        (c4data.subdivisions.map (fun r => fmt2 r.survey_percent)) ++ "];").data
    ++ c4d6.drop (31 + 29)

/-- Document state after the approvalPercentages array-constant replacement. -/
def c4d8 : List Char :=
  c4d7.take 65
    ++ ("const " ++ "approvalPercentages" ++ " = ["
      ++ String.intercalate ", "
        (c4data.subdivisions.map (fun r => fmt2 r.approval_percent)) ++ "];").data
    ++ c4d7.drop (65 + 31)

/-- Document state after the totalSurveyors array-constant replacement. -/
def c4d9 : List Char :=
  c4d8.take 101
    ++ ("const " ++ "totalSurveyors" ++ " = ["
      ++ String.intercalate ", "
        (c4data.subdivisions.map (fun r => Int.repr r.total_surveyors)) ++ "];").data
    ++ c4d8.drop (101 + 26)

/-- Document state after the inField array-constant replacement. -/
def c4d10 : List Char :=
  c4d9.take 129
    ++ ("const " ++ "inField" ++ " = ["
      ++ String.intercalate ", "
        (c4data.subdivisions.map (fun r => Int.repr r.in_field)) ++ "];").data
    ++ c4d9.drop (129 + 19)

/-- Document state after the dailyProgress array-constant replacement. -/
def c4d11 : List Char :=
  c4d10.take 150
    ++ ("const " ++ "dailyProgress" ++ " = ["
      ++ String.intercalate ", "
        (c4data.subdivisions.map (fun r => Int.repr r.surveyed_today)) ++ "];").data
    ++ c4d10.drop (150 + 25)

/-- Document state after the chart-label substitution. -/
def c4d12 : List Char :=
  c4d11.take 259
    ++ ("label: 'Plots Surveyed ("
      ++ format_daily_chart_label c4data.report_date ++ ")'").data
    ++ c4d11.drop (259 + 27)

/-- The document produced by one run of update_html on c4doc. -/
def c4mid : List Char := c4d12

/-- Document state after the as-of-date substitution. -/
def c4e1 : List Char :=
  c4mid.take 177
    ++ ("<p>Ludhiana District | Data as of "
      ++ format_as_of_date c4data.report_date ++ "</p>").data
    ++ c4mid.drop (177 + 54)

/-- Document state after the stats-grid replacement. -/
def c4e2 : List Char :=
  c4e1.take 1431 ++ (build_stats_html c4data.totals).data ++ c4e1.drop 2368

/-- Document state after the subdivision-cards replacement. -/
def c4e3 : List Char :=
  c4e2.take 2430 ++ (build_subdivision_cards_html c4data.subdivisions).data ++ c4e2.drop 4302

/-- Document state after the table-header-date substitution. -/
def c4e4 : List Char :=
  c4e3.take 232
    ++ ("<th>Surveyed ("
      ++ format_surveyed_header_date c4data.report_date ++ ")</th>").data
    ++ c4e3.drop (232 + 26)

/-- Document state after the table-body splice. -/
def c4e5 : List Char :=
  c4e4.take 293 ++ (build_table_body_html c4data.subdivisions c4data.totals).data
    ++ c4e4.drop (1410 + tbodyClose.data.length)

/-- Document state after the subdivisions array-constant replacement. -/
def c4e6 : List Char :=
  c4e5.take 0
    ++ ("const " ++ "subdivisions" ++ " = ["
      ++ String.intercalate ", "
        (c4data.subdivisions.map (fun r => "'" ++ r.name ++ "'")) ++ "];").data
    ++ c4e5.drop (0 + 26)

/-- Document state after the surveyPercentages array-constant replacement. -/
def c4e7 : List Char :=
  c4e6.take 35
    ++ ("const " ++ "surveyPercentages" ++ " = ["
      ++ String.intercalate ", "
        (c4data.subdivisions.map (fun r => fmt2 r.survey_percent)) ++ "];").data
    ++ c4e6.drop (35 + 33)

/-- Document state after the approvalPercentages array-constant replacement. -/
def c4e8 : List Char :=
  c4e7.take 69
    ++ ("const " ++ "approvalPercentages" ++ " = ["
      ++ String.intercalate ", "
        (c4data.subdivisions.map (fun r => fmt2 r.approval_percent)) ++ "];").data
    ++ c4e7.drop (69 + 35)

/-- Document state after the totalSurveyors array-constant replacement. -/
def c4e9 : List Char :=
  c4e8.take 105
    ++ ("const " ++ "totalSurveyors" ++ " = ["
      ++ String.intercalate ", "
        (c4data.subdivisions.map (fun r => Int.repr r.total_surveyors)) ++ "];").data
    ++ c4e8.drop (105 + 27)

/-- Document state after the inField array-constant replacement. -/
def c4e10 : List Char :=
  c4e9.take 133
    ++ ("const " ++ "inField" ++ " = ["
      ++ String.intercalate ", "
        (c4data.subdivisions.map (fun r => Int.repr r.in_field)) ++ "];").data
    ++ c4e9.drop (133 + 20)

/-- Document state after the dailyProgress array-constant replacement. -/
def c4e11 : List Char :=
  c4e10.take 154
    ++ ("const " ++ "dailyProgress" ++ " = ["
      ++ String.intercalate ", "
        (c4data.subdivisions.map (fun r => Int.repr r.surveyed_today)) ++ "];").data
    ++ c4e10.drop (154 + 26)

/-- Document state after the chart-label substitution. -/
def c4e12 : List Char :=
  c4e11.take 263
    ++ ("label: 'Plots Surveyed ("
      ++ format_daily_chart_label c4data.report_date ++ ")'").data
    ++ c4e11.drop (263 + 33)

/-- The document produced by rerunning update_html on c4mid. -/
def c4out : List Char := c4e12

/-- A fully updated document for the empty data snapshot: every marked
region already carries exactly the replacement text, so a rerun leaves
it unchanged. -/
def c4fix : List Char :=
  ("const subdivisions = [];\nconst surveyPercentages = [];\nconst approvalPercentages = [];"
   ++ "\nconst totalSurveyors = [];\nconst inField = [];\nconst dailyProgress = [];\n<p>Ludhian"
   ++ "a District | Data as of 1st January 2024</p>\n<th>Surveyed (1-1-24)</th>\nlabel: 'Plots "
   ++ "Surveyed (1st Jan)'\n            <tbody>\n                <tr>\n                    <td>"
   ++ "<strong>Total</strong></td>\n                    <td><strong>0</strong></td>\n          "
   ++ "          <td><strong>0</strong></td>\n                    <td><strong>0</strong></td>\n"
   ++ "                    <td><strong>0</strong></td>\n                    <td><strong>0</stro"
   ++ "ng></td>\n                    <td><span class=\"badge danger\">0.00%</span></td>\n      "
   ++ "              <td><strong>0</strong></td>\n                    <td><span class=\"badge d"
   ++ "anger\">0.00%</span></td>\n                    <td><strong>0</strong></td>\n            "
   ++ "        <td><strong>0</strong></td>\n                </tr>\n            </tbody>\n    <d"
   ++ "iv class=\"stats-grid\">\n        <div class=\"stat-card\">\n            <div class=\"st"
   ++ "at-label\">Total Uploaded Plots</div>\n            <div class=\"stat-value\">0</div>\n  "
   ++ "          <div class=\"stat-subtext\">Across all sub-divisions</div>\n        </div>\n  "
   ++ "      <div class=\"stat-card success\">\n            <div class=\"stat-label\">Total Sur"
   ++ "veyed</div>\n            <div class=\"stat-value\">0</div>\n            <div class=\"sta"
   ++ "t-subtext\">0.00% completion</div>\n        </div>\n        <div class=\"stat-card warni"
   ++ "ng\">\n            <div class=\"stat-label\">Approved by Supervisor</div>\n            <"
   ++ "div class=\"stat-value\">0</div>\n            <div class=\"stat-subtext\">0.00% of surve"
   ++ "yed</div>\n        </div>\n        <div class=\"stat-card danger\">\n            <div cl"
   ++ "ass=\"stat-label\">Daily Target Required</div>\n            <div class=\"stat-value\">0<"
   ++ "/div>\n            <div class=\"stat-subtext\">To complete by 31st March</div>\n        "
   ++ "</div>\n    </div>\n\n    <h2 style=\"margin: 30px 0 20px 0; padding-left: 10px;\">\n   "
   ++ " <div class=\"subdivision-grid\">\n    </div>\n\n    <!-- Charts: survey, approval, surv"
   ++ "eyors, daily progress -->\n").data

end DcsDash

set_option maxRecDepth 8000
set_option exponentiation.threshold 1100

namespace DcsDash

attribute [local semireducible] Rat.mul Rat.add Rat.sub Rat.inv Rat.ofScientific

/-- Appending `String.mk` values concatenates the character lists. -/
theorem mk_append (a b : List Char) :
    String.mk a ++ String.mk b = String.mk (a ++ b) := rfl

/-- String append is associative (via the underlying lists). -/
theorem str_append_assoc (a b c : String) : a ++ b ++ c = a ++ (b ++ c) := by
  cases a
  cases b
  cases c
  simp only [mk_append, List.append_assoc]

/-- Character data of the literal "-". -/
theorem dash_data : ("-" : String).data = ['-'] := rfl

/-- Character data of the literal ",". -/
theorem comma_data : ("," : String).data = [','] := rfl

/-- Character data of the empty literal. -/
theorem empty_data : ("" : String).data = [] := rfl

/-- String length is the length of the character data. -/
theorem str_length_data (s : String) : s.length = s.data.length := rfl

/-- The parts list built by the fuelled loop worker, reversed, is the
pairs-from-the-right grouping (given enough fuel). -/
theorem partsLoopAux_reverse (fuel : Nat) (hd : List Char)
    (hle : hd.length ≤ fuel) :
    (partsLoopAux fuel hd).reverse = pairsFromRight hd := by
  induction fuel generalizing hd with
  | zero =>
    have he : hd = [] := List.eq_nil_of_length_eq_zero (by omega)
    subst he
    rw [pairsFromRight]
    simp [partsLoopAux]
  | succ fuel ih =>
    rw [partsLoopAux, pairsFromRight]
    by_cases h2 : 2 < hd.length
    · rw [if_pos h2, dif_pos h2, List.reverse_cons,
        ih (hd.take (hd.length - 2)) (by simp only [List.length_take]; omega)]
    · rw [if_neg h2, dif_neg h2]
      by_cases he : hd = [] <;> simp [he]

/-- The parts list built by the `while` loop of `format_indian_number`,
reversed, is exactly the pairs-from-the-right grouping. -/
theorem partsLoop_reverse (hd : List Char) :
    (partsLoop hd).reverse = pairsFromRight hd :=
  partsLoopAux_reverse hd.length hd le_rfl

/-- C7: the Indian-style integer formatter maps 0 to "0", 999 to
"999", 1000 to "1,000", 100000 to "1,00,000" and 1234567 to
"12,34,567"; in general the output is the sign followed by the
grouping in which the last 3 digits form one group and the remaining
digits are grouped in pairs from the right; a negative input yields
the grouping of its absolute value prefixed with "-". -/
theorem c7_indian_grouping :
    (format_indian_number 0 = "0" ∧ format_indian_number 999 = "999"
      ∧ format_indian_number 1000 = "1,000"
      ∧ format_indian_number 100000 = "1,00,000"
      ∧ format_indian_number 1234567 = "12,34,567")
    ∧ (∀ n : Int, (format_indian_number n).data
        = (if n < 0 then ['-'] else [])
            ++ indianGroupingClaim (Nat.repr n.natAbs).data)
    ∧ (∀ n : Int, n < 0 → format_indian_number n = "-" ++ format_indian_number (-n)) := by
  refine ⟨by decide, ?_, ?_⟩
  · intro n
    simp only [format_indian_number, indianGroupingClaim]
    rw [← partsLoop_reverse]
    by_cases hn : n < 0 <;> by_cases hc : (Nat.repr n.natAbs).length ≤ 3 <;>
      simp [hn, hc, String.data_append, dash_data, empty_data, comma_data,
        List.append_assoc]
  · intro n hn
    have h2 : (-n).natAbs = n.natAbs := by
      simp [Int.natAbs_neg]
    have h3 : ¬ (-n) < 0 := by omega
    simp only [format_indian_number, h2]
    by_cases hc : (Nat.repr n.natAbs).length ≤ 3 <;>
      simp [hn, h3, hc, str_append_assoc]

/-- C7 witness: the negative-input clause of `c7_indian_grouping`
applied at -1234567. -/
theorem c7_indian_grouping_witness :
    format_indian_number (-1234567) = "-" ++ format_indian_number (-(-1234567)) :=
  c7_indian_grouping.2.2 (-1234567) (by decide)

/-- C8: the ordinal formatter, on day-of-month values 1..31, appends
"th" for 11..20 and otherwise "st"/"nd"/"rd"/"th" by the value mod 10;
in particular 1st, 2nd, 3rd, 4th, 11th, 12th, 21st. -/
theorem c8_ordinal_suffixes :
    (∀ n : Int, 1 ≤ n → n ≤ 31 →
      ordinal n = Int.repr n
        ++ (if 11 ≤ n ∧ n ≤ 20 then "th"
            else if n % 10 = 1 then "st"
            else if n % 10 = 2 then "nd"
            else if n % 10 = 3 then "rd"
            else "th"))
    ∧ ordinal 1 = "1st" ∧ ordinal 2 = "2nd" ∧ ordinal 3 = "3rd"
    ∧ ordinal 4 = "4th" ∧ ordinal 11 = "11th" ∧ ordinal 12 = "12th"
    ∧ ordinal 21 = "21st" := by
  refine ⟨?_, by decide, by decide, by decide, by decide, by decide, by decide, by decide⟩
  intro n h1 h31
  interval_cases n <;> decide

/-- C8 witness: the bounded clause of `c8_ordinal_suffixes` applied at
day 21. -/
theorem c8_ordinal_suffixes_witness :
    ordinal 21 = Int.repr 21
      ++ (if 11 ≤ (21 : Int) ∧ (21 : Int) ≤ 20 then "th"
          else if (21 : Int) % 10 = 1 then "st"
          else if (21 : Int) % 10 = 2 then "nd"
          else if (21 : Int) % 10 = 3 then "rd"
          else "th") :=
  c8_ordinal_suffixes.1 21 (by decide) (by decide)

/-- C10 counterexample: `to_int` raises on the cell text "nan"
(`parse_number` returns NaN and Python's `round` then raises
`ValueError`), so the coercions are not total over all cell values. -/
theorem c10_counterexample :
    to_int (Cell.str "nan") = Except.error "cannot convert float NaN to integer" := by
  decide

/-- `to_percent` succeeds exactly when `parse_number` does. -/
theorem isOk_to_percent (c : Cell) :
    isOk (to_percent c) = isOk (parse_number c) := by
  cases e : parse_number c <;> (simp only [to_percent, e]; rfl)

/-- `parse_number` is total on string cells (every text falls into the
blank/dash case, the `float()` success case, or the caught
`ValueError` case). -/
theorem isOk_parse_number_str (s : String) :
    isOk (parse_number (Cell.str s)) = true := by
  simp only [parse_number]
  split
  · simp [isOk]
  · split <;> simp [isOk]

/-- C10 amended: `to_percent` raises exactly when `parse_number` does
(an `int` cell beyond the double range); `to_int` succeeds exactly when
the parsed value is finite — so it additionally raises on cells parsing
to `nan` or an infinity; on string cells `to_percent` never raises. -/
theorem c10_amended :
    (∀ c : Cell, isOk (to_percent c) = isOk (parse_number c))
    ∧ (∀ c : Cell, isOk (to_int c) = true
        ↔ ∃ q : ℚ, parse_number c = Except.ok (PyFloat.fin q))
    ∧ (∀ s : String, isOk (to_percent (Cell.str s)) = true) := by
  refine ⟨isOk_to_percent, ?_, ?_⟩
  · intro c
    cases e : parse_number c with
    | error err =>
      constructor
      · intro h
        have : isOk (to_int c) = false := by
          simp only [to_int, e]
          rfl
        rw [h] at this
        exact absurd this (by simp)
      · rintro ⟨q, hq⟩
        exact absurd hq (by simp)
    | ok f =>
      cases f with
      | fin q =>
        constructor
        · intro _
          exact ⟨q, rfl⟩
        · intro _
          simp only [to_int, e]
          rfl
      | inf =>
        constructor
        · intro h
          have : isOk (to_int c) = false := by
            simp only [to_int, e]
            rfl
          rw [h] at this
          exact absurd this (by simp)
        · rintro ⟨q, hq⟩
          exact absurd hq (by simp)
      | ninf =>
        constructor
        · intro h
          have : isOk (to_int c) = false := by
            simp only [to_int, e]
            rfl
          rw [h] at this
          exact absurd this (by simp)
        · rintro ⟨q, hq⟩
          exact absurd hq (by simp)
      | nan =>
        constructor
        · intro h
          have : isOk (to_int c) = false := by
            simp only [to_int, e]
            rfl
          rw [h] at this
          exact absurd this (by simp)
        · rintro ⟨q, hq⟩
          exact absurd hq (by simp)
  · intro s
    rw [isOk_to_percent]
    exact isOk_parse_number_str s

/-- C10 witness: the finiteness clause of `c10_amended` applied at the
cell text "7". -/
theorem c10_amended_witness :
    isOk (to_int (Cell.str "7")) = true :=
  (c10_amended.2.1 (Cell.str "7")).mpr ⟨7, by decide⟩

/-- Python `float("")` fails. -/
theorem pyFloatOfString_nil : pyFloatOfString [] = Option.none := by decide

/-- Python `float("-")` fails. -/
theorem pyFloatOfString_dash : pyFloatOfString ['-'] = Option.none := by decide

/-- The value `parse_number` computes for a string cell, given the
outcome of `float()` on the stripped, comma-free text. -/
theorem parse_number_str_of_parse (s : String) (f : PyFloat)
    (h : pyFloatOfString (removeCommas (stripList s.data)) = some f) :
    parse_number (Cell.str s) = Except.ok f := by
  have hne : ¬ (removeCommas (stripList s.data) = []
      ∨ removeCommas (stripList s.data) = ['-']) := by
    rintro (he | he) <;> rw [he] at h
    · rw [pyFloatOfString_nil] at h
      exact absurd h (by simp)
    · rw [pyFloatOfString_dash] at h
      exact absurd h (by simp)
  simp only [parse_number, if_neg hne, h]

/-- C6: `parse_number`-based coercion is tolerant: `None`, blank text,
the text "-", and text rejected by `float()` all coerce to zero; for
text that `float()` accepts (commas having been stripped first), the
value is rounded half-to-even to an integer by `to_int` and to two
decimal places by `to_percent`. -/
theorem c6_tolerant_coercion :
    (to_int Cell.none = Except.ok 0
      ∧ to_percent Cell.none = Except.ok (PyFloat.fin 0))
    ∧ (∀ s : String, pyStrip s = "" →
        to_int (Cell.str s) = Except.ok 0
          ∧ to_percent (Cell.str s) = Except.ok (PyFloat.fin 0))
    ∧ (∀ s : String, removeCommas (stripList s.data) = ['-'] →
        to_int (Cell.str s) = Except.ok 0
          ∧ to_percent (Cell.str s) = Except.ok (PyFloat.fin 0))
    ∧ (∀ s : String,
        pyFloatOfString (removeCommas (stripList s.data)) = Option.none →
        to_int (Cell.str s) = Except.ok 0
          ∧ to_percent (Cell.str s) = Except.ok (PyFloat.fin 0))
    ∧ (∀ (s : String) (q : ℚ),
        pyFloatOfString (removeCommas (stripList s.data))
            = some (PyFloat.fin q) →
        to_int (Cell.str s) = Except.ok (pyRound q)
          ∧ to_percent (Cell.str s) = Except.ok (PyFloat.fin (round2 q))) := by
  refine ⟨by decide, ?_, ?_, ?_, ?_⟩
  · intro s hs
    have hl : stripList s.data = [] := by
      have := congrArg String.data hs
      simpa [pyStrip] using this
    have hp : parse_number (Cell.str s) = Except.ok (PyFloat.fin 0) := by
      simp [parse_number, hl, removeCommas]
    constructor
    · simp only [to_int, hp]
      show Except.ok (pyRound 0) = Except.ok 0
      rw [show pyRound 0 = 0 from by decide]
    · simp only [to_percent, hp]
      show Except.ok (round2f (PyFloat.fin 0)) = Except.ok (PyFloat.fin 0)
      rw [show round2f (PyFloat.fin 0) = PyFloat.fin 0 from by decide]
  · intro s hs
    have hp : parse_number (Cell.str s) = Except.ok (PyFloat.fin 0) := by
      simp [parse_number, hs]
    constructor
    · simp only [to_int, hp]
      show Except.ok (pyRound 0) = Except.ok 0
      rw [show pyRound 0 = 0 from by decide]
    · simp only [to_percent, hp]
      show Except.ok (round2f (PyFloat.fin 0)) = Except.ok (PyFloat.fin 0)
      rw [show round2f (PyFloat.fin 0) = PyFloat.fin 0 from by decide]
  · intro s hs
    have hp : parse_number (Cell.str s) = Except.ok (PyFloat.fin 0) := by
      by_cases hc : removeCommas (stripList s.data) = []
          ∨ removeCommas (stripList s.data) = ['-']
      · simp [parse_number, hc]
      · simp [parse_number, hc, hs]
    constructor
    · simp only [to_int, hp]
      show Except.ok (pyRound 0) = Except.ok 0
      rw [show pyRound 0 = 0 from by decide]
    · simp only [to_percent, hp]
      show Except.ok (round2f (PyFloat.fin 0)) = Except.ok (PyFloat.fin 0)
      rw [show round2f (PyFloat.fin 0) = PyFloat.fin 0 from by decide]
  · intro s q hq
    have hp := parse_number_str_of_parse s (PyFloat.fin q) hq
    exact ⟨by simp only [to_int, hp]; rfl, by simp only [to_percent, hp]; rfl⟩

/-- C6 witness: the clauses of `c6_tolerant_coercion` applied at the
cell texts "  ", " - ", "abc" and " 1,234.5 ". -/
theorem c6_tolerant_coercion_witness :
    (to_int (Cell.str "  ") = Except.ok 0)
    ∧ (to_int (Cell.str " - ") = Except.ok 0)
    ∧ (to_int (Cell.str "abc") = Except.ok 0)
    ∧ (to_int (Cell.str " 1,234.5 ") = Except.ok (pyRound (2469 / 2)))
    ∧ (to_percent (Cell.str " 1,234.5 ")
        = Except.ok (PyFloat.fin (round2 (2469 / 2)))) :=
  ⟨(c6_tolerant_coercion.2.1 "  " (by decide)).1,
   (c6_tolerant_coercion.2.2.1 " - " (by decide)).1,
   (c6_tolerant_coercion.2.2.2.1 "abc" (by decide)).1,
   (c6_tolerant_coercion.2.2.2.2 " 1,234.5 " (2469 / 2) (by decide)).1,
   (c6_tolerant_coercion.2.2.2.2 " 1,234.5 " (2469 / 2) (by decide)).2⟩

/-- C2: the target file is written at most once per run, and only with
the fully substituted in-memory document; when any extraction or
substitution step raises, no write happens and the file contents are
unchanged. -/
theorem c2_atomic_write :
    (∀ (doc : List Char) (d : DashData), (run_update doc d).2 ≤ 1)
    ∧ (∀ (doc : List Char) (d : DashData) (e : String),
        update_html doc d = Except.error e → run_update doc d = (doc, 0))
    ∧ (∀ (doc : List Char) (d : DashData) (h : List Char),
        update_html doc d = Except.ok h → run_update doc d = (h, 1)) := by
  refine ⟨?_, ?_, ?_⟩
  · intro doc d
    unfold run_update
    cases update_html doc d <;> simp
  · intro doc d e he
    unfold run_update
    rw [he]
  · intro doc d h hh
    unfold run_update
    rw [hh]

/-- C2 witness: on an empty document the run aborts at the stats-grid
marker and the file is left unchanged. -/
theorem c2_atomic_write_witness :
    run_update [] emptyDash = ([], 0) :=
  c2_atomic_write.2.1 [] emptyDash
    ("Start marker not found: " ++ statsStart) (by decide)

/-- Lookup on a cons cell of the association list. -/
theorem dictGet_cons (x : String × Record) (l : List (String × Record))
    (k : String) :
    dictGet (x :: l) k = if x.1 = k then some x.2 else dictGet l k := by
  unfold dictGet
  by_cases hx : x.1 = k <;> simp [List.find?_cons, hx]

/-- Looking up the overwritten key after the in-place map of
`dictInsert` yields the new value exactly when the key was present. -/
theorem dictGet_map_overwrite_same (m : List (String × Record))
    (k : String) (v : Record) :
    dictGet (m.map (fun p => if p.1 = k then (k, v) else p)) k
      = if m.any (fun p => p.1 = k) then some v else Option.none := by
  induction m with
  | nil => rfl
  | cons p rest ih =>
    by_cases hp : p.1 = k
    · rw [List.map_cons, if_pos hp, dictGet_cons, if_pos rfl]
      simp [hp]
    · rw [List.map_cons, if_neg hp, dictGet_cons, if_neg hp, ih, List.any_cons,
        show decide (p.1 = k) = false from decide_eq_false hp, Bool.false_or]

/-- The in-place map of `dictInsert` does not affect lookups of other
keys. -/
theorem dictGet_map_overwrite_other (m : List (String × Record))
    (k : String) (v : Record) (k' : String) (h : k' ≠ k) :
    dictGet (m.map (fun p => if p.1 = k then (k, v) else p)) k'
      = dictGet m k' := by
  induction m with
  | nil => rfl
  | cons p rest ih =>
    by_cases hp : p.1 = k
    · have h1 : ¬ (k = k') := fun he => h he.symm
      have h2 : ¬ (p.1 = k') := by
        rw [hp]
        exact h1
      rw [List.map_cons, if_pos hp, dictGet_cons, dictGet_cons,
        if_neg h1, if_neg h2, ih]
    · rw [List.map_cons, if_neg hp, dictGet_cons, dictGet_cons, ih]

/-- Lookup after a `dictInsert`: the inserted key maps to the new
value, every other key is untouched. -/
theorem dictGet_dictInsert (m : List (String × Record)) (k : String)
    (v : Record) (k' : String) :
    dictGet (dictInsert m k v) k'
      = if k' = k then some v else dictGet m k' := by
  unfold dictInsert
  by_cases hany : m.any (fun p => p.1 = k)
  · rw [if_pos hany]
    by_cases hk : k' = k
    · subst hk
      rw [dictGet_map_overwrite_same, if_pos hany, if_pos rfl]
    · rw [dictGet_map_overwrite_other m k v k' hk, if_neg hk]
  · rw [if_neg hany]
    by_cases hk : k' = k
    · subst hk
      have hm : List.find? (fun p => decide (p.1 = k')) m = Option.none := by
        rw [List.find?_eq_none]
        intro p hp hc
        exact hany (List.any_eq_true.mpr ⟨p, hp, hc⟩)
      unfold dictGet
      rw [List.find?_append, hm]
      simp [List.find?]
    · unfold dictGet
      rw [List.find?_append]
      cases e : List.find? (fun p => decide (p.1 = k')) m with
      | none =>
        have hd : decide (k = k') = false := decide_eq_false (fun he => hk he.symm)
        simp [List.find?_cons, hd, hk]
      | some val =>
        rw [if_neg hk]
        simp

/-- `buildByName` over a snoc: the last row is the last `dict` write. -/
theorem buildByName_concat (subs : List Record) (r : Record) :
    buildByName (subs ++ [r]) = dictInsert (buildByName subs) r.name r := by
  unfold buildByName
  rw [List.foldl_append]
  rfl

/-- The name-keyed mapping looks up to the last row of that name, in
row order: last write wins. -/
theorem dictGet_buildByName (subs : List Record) (nm : String) :
    dictGet (buildByName subs) nm
      = (subs.filter (fun r => r.name = nm)).getLast? := by
  induction subs using List.reverseRecOn with
  | nil => rfl
  | append_singleton rest r ih =>
    rw [buildByName_concat, dictGet_dictInsert, List.filter_append]
    by_cases hr : r.name = nm
    · rw [if_pos hr.symm]
      have hone : List.filter (fun x => decide (x.name = nm)) [r] = [r] := by
        simp [hr]
      rw [hone, List.getLast?_concat]
    · have h1 : ¬ (nm = r.name) := fun he => hr he.symm
      rw [if_neg h1]
      have hnil : List.filter (fun x => decide (x.name = nm)) [r] = [] := by
        simp [hr]
      rw [hnil, List.append_nil, ih]

/-- A successful lookup in the name-keyed mapping returns a record
carrying the looked-up name. -/
theorem name_of_dictGet (subs : List Record) (nm : String) (r : Record)
    (h : dictGet (buildByName subs) nm = some r) : r.name = nm := by
  rw [dictGet_buildByName] at h
  have hm := List.mem_of_getLast?_eq_some h
  have hp := List.of_mem_filter hm
  exact of_decide_eq_true hp

/-- Mapping names over a `filterMap` whose values carry their keys
gives the filter of present keys. -/
theorem filterMap_names_filter (L : List String)
    (f : String → Option Record)
    (hf : ∀ nm r, f nm = some r → r.name = nm) :
    (L.filterMap f).map (fun r => r.name)
      = L.filter (fun nm => (f nm).isSome) := by
  induction L with
  | nil => rfl
  | cons a rest ih =>
    rw [List.filterMap_cons, List.filter_cons]
    cases e : f a with
    | none =>
      rw [ih]
      simp [e]
    | some r =>
      rw [List.map_cons, ih, hf a r e]
      simp [e]

/-- In a `filterMap` whose values carry their keys, filtering for a key
outside the key list gives nothing. -/
theorem filter_filterMap_not_mem (L : List String)
    (f : String → Option Record)
    (hf : ∀ nm r, f nm = some r → r.name = nm)
    (nm : String) (h : nm ∉ L) :
    (L.filterMap f).filter (fun r => r.name = nm) = [] := by
  induction L with
  | nil => rfl
  | cons a rest ih =>
    have hna : nm ≠ a := fun he => h (he ▸ List.mem_cons_self a rest)
    have hrest : nm ∉ rest := fun hm => h (List.mem_cons_of_mem a hm)
    rw [List.filterMap_cons]
    cases e : f a with
    | none => exact ih hrest
    | some r =>
      rw [List.filter_cons]
      have hne : ¬ (r.name = nm) := by
        rw [hf a r e]
        exact fun he => hna he.symm
      rw [if_neg (by simpa using hne)]
      exact ih hrest

/-- In a `filterMap` over a duplicate-free key list, filtering for a
present key yields exactly that key's value (when any). -/
theorem filter_filterMap_mem (L : List String)
    (f : String → Option Record)
    (hf : ∀ nm r, f nm = some r → r.name = nm)
    (nm : String) (hnd : L.Nodup) (h : nm ∈ L) :
    (L.filterMap f).filter (fun r => r.name = nm) = (f nm).toList := by
  induction L with
  | nil => exact absurd h (List.not_mem_nil nm)
  | cons a rest ih =>
    rw [List.filterMap_cons]
    by_cases ha : nm = a
    · subst ha
      have hrest : nm ∉ rest := (List.nodup_cons.mp hnd).1
      cases e : f nm with
      | none =>
        rw [filter_filterMap_not_mem rest f hf nm hrest]
        rfl
      | some r =>
        rw [List.filter_cons]
        have hr : r.name = nm := hf nm r e
        rw [if_pos (by simpa using hr)]
        rw [filter_filterMap_not_mem rest f hf nm hrest]
        rfl
    · have hrest : nm ∈ rest := (List.mem_cons.mp h).resolve_left ha
      have hnd2 : rest.Nodup := (List.nodup_cons.mp hnd).2
      cases e : f a with
      | none => exact ih hnd2 hrest
      | some r =>
        rw [List.filter_cons]
        have hne : ¬ (r.name = nm) := by
          rw [hf a r e]
          exact fun he => ha he.symm
        rw [if_neg (by simpa using hne)]
        exact ih hnd2 hrest

/-- C5: the reordered record set is the canonical part followed by the
extras; the canonical part's names are exactly the present names of
`CANONICAL_ORDER`, in that fixed order regardless of input row order;
the extras are a permutation of the non-canonical records, sorted
alphabetically by name. -/
theorem c5_canonical_ordering (subs : List Record) :
    reorder subs = canonicalPart subs ++ sortExtras (extrasOf subs)
    ∧ (canonicalPart subs).map (fun r => r.name)
        = CANONICAL_ORDER.filter (fun nm => subs.any (fun r => r.name = nm))
    ∧ (sortExtras (extrasOf subs)).Pairwise (fun a b => a.name ≤ b.name)
    ∧ (sortExtras (extrasOf subs)).Perm (extrasOf subs)
    ∧ (∀ r ∈ canonicalPart subs, r.name ∈ CANONICAL_ORDER) := by
  refine ⟨rfl, ?_, ?_, ?_, ?_⟩
  · unfold canonicalPart
    rw [filterMap_names_filter CANONICAL_ORDER _ (name_of_dictGet subs)]
    apply List.filter_congr
    intro nm _
    rw [dictGet_buildByName]
    cases e : (subs.filter (fun r => r.name = nm)).getLast? with
    | none =>
      rw [List.getLast?_eq_none_iff] at e
      have hall : ∀ r ∈ subs, ¬ (decide (r.name = nm) = true) :=
        List.filter_eq_nil_iff.mp e
      have hany : subs.any (fun r => decide (r.name = nm)) = false := by
        rw [Bool.eq_false_iff]
        intro hc
        obtain ⟨r, hr, hp⟩ := List.any_eq_true.mp hc
        exact hall r hr hp
      rw [hany]
      rfl
    | some r =>
      have hmem := List.mem_of_getLast?_eq_some e
      have hmem2 := List.mem_of_mem_filter hmem
      have hp := List.of_mem_filter hmem
      have hany : subs.any (fun r => decide (r.name = nm)) = true :=
        List.any_eq_true.mpr ⟨r, hmem2, hp⟩
      rw [hany]
      rfl
  · exact (List.sorted_mergeSort
      (fun a b c hab hbc => by
        simp only [decide_eq_true_eq] at *
        exact le_trans hab hbc)
      (fun a b => by
        rcases le_total a.name b.name with h | h <;> simp [h])
      (extrasOf subs)).imp (fun h => of_decide_eq_true h)
  · exact List.mergeSort_perm (extrasOf subs) _
  · intro r hr
    obtain ⟨nm, hnm, he⟩ := List.mem_filterMap.mp hr
    rw [← name_of_dictGet subs nm r he] at hnm
    exact hnm

/-- C5 witness: `c5_canonical_ordering` applied to a concrete record
set. -/
theorem c5_canonical_ordering_witness :
    reorder [dupA, dupB] = canonicalPart [dupA, dupB]
      ++ sortExtras (extrasOf [dupA, dupB]) :=
  (c5_canonical_ordering [dupA, dupB]).1

/-- C9: when several rows share a known subdivision display name, the
canonical part renders that subdivision exactly once, with the record
of the last such row (last write wins into the name-keyed mapping,
applied before canonical ordering). -/
theorem c9_last_write_wins (subs : List Record) (nm : String)
    (h : nm ∈ CANONICAL_ORDER) :
    (canonicalPart subs).filter (fun r => r.name = nm)
      = ((subs.filter (fun r => r.name = nm)).getLast?).toList
    ∧ (subs.filter (fun r => r.name = nm) ≠ [] →
        ((canonicalPart subs).filter (fun r => r.name = nm)).length = 1) := by
  have hnd : CANONICAL_ORDER.Nodup := by decide
  have h1 : (canonicalPart subs).filter (fun r => r.name = nm)
      = (dictGet (buildByName subs) nm).toList :=
    filter_filterMap_mem CANONICAL_ORDER _ (name_of_dictGet subs) nm hnd h
  refine ⟨?_, ?_⟩
  · rw [h1, dictGet_buildByName]
  · intro hne
    rw [h1, dictGet_buildByName]
    cases e : (subs.filter (fun r => r.name = nm)).getLast? with
    | none =>
      rw [List.getLast?_eq_none_iff] at e
      exact absurd e hne
    | some r => rfl

/-- C9 witness: two records named "Raikot" collapse to the later one in
the canonical part. -/
theorem c9_last_write_wins_witness :
    (canonicalPart [dupA, dupB]).filter (fun r => r.name = "Raikot")
      = (([dupA, dupB].filter (fun r => r.name = "Raikot")).getLast?).toList :=
  (c9_last_write_wins [dupA, dupB] "Raikot" (by decide)).1

/-- Binding an error short-circuits. -/
theorem bind_error_eq {α β : Type} (e : String) (f : α → Except String β) :
    (Except.error e >>= f) = Except.error e := rfl

/-- Binding a success applies the continuation. -/
theorem bind_ok_eq {α β : Type} (a : α) (f : α → Except String β) :
    (Except.ok a >>= f) = f a := rfl

/-- Unfolding equation of the extraction loop on the empty row list. -/
theorem extractLoop_nil (acc : List Record × Option Record) :
    extractLoop [] acc = Except.ok acc := rfl

/-- Unfolding equation of the extraction loop on a cons. -/
theorem extractLoop_cons (row : RawRow) (rest : List RawRow)
    (subs : List Record) (tot : Option Record) :
    extractLoop (row :: rest) (subs, tot)
      = if skipRow row then extractLoop rest (subs, tot)
        else
          (buildRecord row >>= fun rd =>
            if normalize_name (rawNameOf row) = "total" then
              extractLoop rest (subs, some rd)
            else extractLoop rest (subs ++ [rd], tot)) := rfl

/-- When no data row normalises to "total", the extraction loop never
fills the totals slot. -/
theorem extractLoop_no_total (rows : List RawRow)
    (h : ∀ r ∈ rows, normalize_name (rawNameOf r) ≠ "total") :
    ∀ (subs0 subs : List Record) (tot : Option Record),
      extractLoop rows (subs0, Option.none) = Except.ok (subs, tot) →
      tot = Option.none := by
  induction rows with
  | nil =>
    intro subs0 subs tot he
    rw [extractLoop_nil] at he
    have hp : (subs0, (Option.none : Option Record)) = (subs, tot) := by
      injection he
    exact (congrArg Prod.snd hp).symm
  | cons row rest ih =>
    intro subs0 subs tot he
    have hrest : ∀ r ∈ rest, normalize_name (rawNameOf r) ≠ "total" :=
      fun r hr => h r (List.mem_cons_of_mem row hr)
    rw [extractLoop_cons] at he
    by_cases hs : skipRow row
    · rw [if_pos hs] at he
      exact ih hrest subs0 subs tot he
    · rw [if_neg hs] at he
      cases hb : buildRecord row with
      | error e =>
        rw [hb, bind_error_eq] at he
        exact absurd he (by simp)
      | ok rd =>
        rw [hb, bind_ok_eq] at he
        have hne := h row (List.mem_cons_self row rest)
        rw [if_neg hne] at he
        exact ih hrest (subs0 ++ [rd]) subs tot he

/-- C3: with no "total" row in the data, the totals record equals the
field-wise sums over the extracted subdivision records, with
`survey_percent = round(total_surveyed/uploaded_plots*100, 2)` when the
summed `uploaded_plots` is nonzero (else 0.0) and
`approval_percent = round(approved/total_surveyed*100, 2)` when the
summed `total_surveyed` is nonzero (else 0.0). -/
theorem c3_computed_totals (rows : List RawRow) (subs : List Record)
    (totals : Record)
    (hno : ∀ r ∈ rows, normalize_name (rawNameOf r) ≠ "total")
    (h : read_excel_records rows = Except.ok (subs, totals)) :
    totals.uploaded_villages = (subs.map (fun r => r.uploaded_villages)).sum
    ∧ totals.uploaded_plots = (subs.map (fun r => r.uploaded_plots)).sum
    ∧ totals.daily_target = (subs.map (fun r => r.daily_target)).sum
    ∧ totals.surveyed_today = (subs.map (fun r => r.surveyed_today)).sum
    ∧ totals.total_surveyed = (subs.map (fun r => r.total_surveyed)).sum
    ∧ totals.approved = (subs.map (fun r => r.approved)).sum
    ∧ totals.total_surveyors = (subs.map (fun r => r.total_surveyors)).sum
    ∧ totals.in_field = (subs.map (fun r => r.in_field)).sum
    ∧ totals.survey_percent
        = (if (subs.map (fun r => r.uploaded_plots)).sum ≠ 0 then
            PyFloat.fin (round2
              ((((subs.map (fun r => r.total_surveyed)).sum : ℚ)
                / ((subs.map (fun r => r.uploaded_plots)).sum : ℚ)) * 100))
          else PyFloat.fin 0)
    ∧ totals.approval_percent
        = (if (subs.map (fun r => r.total_surveyed)).sum ≠ 0 then
            PyFloat.fin (round2
              ((((subs.map (fun r => r.approved)).sum : ℚ)
                / ((subs.map (fun r => r.total_surveyed)).sum : ℚ)) * 100))
          else PyFloat.fin 0) := by
  unfold read_excel_records at h
  cases he : extractLoop rows ([], Option.none) with
  | error e =>
    rw [he, bind_error_eq] at h
    exact absurd h (by simp)
  | ok p =>
    obtain ⟨subs0, tot⟩ := p
    have htot : tot = Option.none := extractLoop_no_total rows hno [] subs0 tot he
    subst htot
    rw [he, bind_ok_eq] at h
    dsimp only at h
    by_cases hz : subs0 = []
    · rw [if_pos hz] at h
      exact absurd h (by simp)
    · rw [if_neg hz] at h
      have hpair : (reorder subs0, computeTotals (reorder subs0)) = (subs, totals) := by
        injection h
      have hsubs : reorder subs0 = subs := congrArg Prod.fst hpair
      have htotals : computeTotals (reorder subs0) = totals := congrArg Prod.snd hpair
      rw [hsubs] at htotals
      subst htotals
      simp only [computeTotals]
      simp [Function.comp_def]

/-- Witness for C3: the hypotheses hold at the concrete rows
`[c3row2, c3row1]` (no row normalises to "total"; extraction returns
`(c3subs, c3totals)`), and the conclusion holds there. -/
theorem c3_computed_totals_witness :
    (∀ r ∈ [c3row2, c3row1], normalize_name (rawNameOf r) ≠ "total")
    ∧ read_excel_records [c3row2, c3row1] = Except.ok (c3subs, c3totals)
    ∧ (c3totals.uploaded_villages
        = (c3subs.map (fun r => r.uploaded_villages)).sum
      ∧ c3totals.uploaded_plots = (c3subs.map (fun r => r.uploaded_plots)).sum
      ∧ c3totals.daily_target = (c3subs.map (fun r => r.daily_target)).sum
      ∧ c3totals.surveyed_today = (c3subs.map (fun r => r.surveyed_today)).sum
      ∧ c3totals.total_surveyed = (c3subs.map (fun r => r.total_surveyed)).sum
      ∧ c3totals.approved = (c3subs.map (fun r => r.approved)).sum
      ∧ c3totals.total_surveyors
          = (c3subs.map (fun r => r.total_surveyors)).sum
      ∧ c3totals.in_field = (c3subs.map (fun r => r.in_field)).sum
      ∧ c3totals.survey_percent
          = (if (c3subs.map (fun r => r.uploaded_plots)).sum ≠ 0 then
              PyFloat.fin (round2
                ((((c3subs.map (fun r => r.total_surveyed)).sum : ℚ)
                  / ((c3subs.map (fun r => r.uploaded_plots)).sum : ℚ)) * 100))
            else PyFloat.fin 0)
      ∧ c3totals.approval_percent
          = (if (c3subs.map (fun r => r.total_surveyed)).sum ≠ 0 then
              PyFloat.fin (round2
                ((((c3subs.map (fun r => r.approved)).sum : ℚ)
                  / ((c3subs.map (fun r => r.total_surveyed)).sum : ℚ)) * 100))
            else PyFloat.fin 0)) :=
  have hrec : read_excel_records [c3row2, c3row1]
      = Except.ok (c3subs, c3totals) := by
    unfold read_excel_records
    rw [show extractLoop [c3row2, c3row1] ([], Option.none)
        = Except.ok (c3subs0, Option.none) from by decide]
    rw [bind_ok_eq]
    dsimp only
    rw [if_neg (by decide : ¬c3subs0 = [])]
    rw [show reorder c3subs0 = c3subs from by
      unfold reorder
      rw [show extrasOf c3subs0 = [] from by decide]
      rw [show canonicalPart c3subs0 = c3subs from by decide]
      simp [sortExtras]]
    rw [show computeTotals c3subs = c3totals from by decide]
  ⟨by decide, hrec,
   c3_computed_totals [c3row2, c3row1] c3subs c3totals (by decide) hrec⟩

/-- C1: counterexample. On the empty document the as-of-date anchor is
absent (`reFind asOfPat [] = none`), yet the as-of substitution does
not abort: it silently returns the document unchanged, and the run
proceeds to fail only later, at the stats-grid start marker, with the
stats error message — not an as-of error.  So a regex-substitution
step whose anchor is missing does not raise. -/
theorem c1_counterexample :
    reFind asOfPat [] = Option.none
    ∧ reSubOnce asOfPat
        ("<p>Ludhiana District | Data as of "
          ++ format_as_of_date emptyDash.report_date ++ "</p>").data [] = []
    ∧ update_html [] emptyDash
        = Except.error ("Start marker not found: " ++ statsStart) := by
  refine ⟨by decide, by decide, ?_⟩
  decide

/-- C1 (amended): the marker-delimited and array-constant replacement
operations do abort with a descriptive error when their anchor is
missing, but the three single-match regex substitutions (as-of date
line, table header date, chart label) silently return the document
unchanged when their pattern has no match. -/
theorem c1_amended (text startM endM repl : List Char) (cn vjs : String)
    (p : ReSeg) (r s : List Char) :
    (firstOcc startM text = Option.none →
      replace_between text startM endM repl
        = Except.error ("Start marker not found: " ++ String.mk startM))
    ∧ (firstOcc tbodyOpen.data text = Option.none →
      tbodySplice text repl = Except.error "Could not find <tbody> in table.")
    ∧ (reFind (arrayPat cn) text = Option.none →
      replace_array_const text cn vjs
        = Except.error ("JS array constant not found: " ++ cn))
    ∧ (reFind p s = Option.none → reSubOnce p r s = s) := by
  refine ⟨?_, ?_, ?_, ?_⟩
  · intro h
    unfold replace_between
    rw [h]
  · intro h
    unfold tbodySplice
    rw [h]
  · intro h
    unfold replace_array_const
    rw [h]
    simp
  · intro h
    unfold reSubOnce
    rw [h]

/-- Witness for the amended C1 at concrete inputs: on the empty
document with markers "a"/"b", the array constant "subdivisions" and
the as-of pattern, each anchor is indeed missing and the theorem's
conclusions hold. -/
theorem c1_amended_witness :
    replace_between [] "a".data "b".data []
      = Except.error ("Start marker not found: " ++ String.mk "a".data)
    ∧ tbodySplice [] [] = Except.error "Could not find <tbody> in table."
    ∧ replace_array_const [] "subdivisions" ""
        = Except.error ("JS array constant not found: " ++ "subdivisions")
    ∧ reSubOnce asOfPat [] [] = [] :=
  ⟨(c1_amended [] "a".data "b".data [] "subdivisions" "" asOfPat [] []).1
      (by decide),
   (c1_amended [] "a".data "b".data [] "subdivisions" "" asOfPat [] []).2.1
      (by decide),
   (c1_amended [] "a".data "b".data [] "subdivisions" "" asOfPat [] []).2.2.1
      (by decide),
   (c1_amended [] "a".data "b".data [] "subdivisions" "" asOfPat [] []).2.2.2
      (by decide)⟩

/-- One regex substitution, made explicit: when the leftmost match is
at `i` with length `len`, the result is the spliced document. -/
theorem reSubOnce_eq_of_find (p : ReSeg) (r s : List Char) (i len : Nat)
    (h : reFind p s = some (i, len)) :
    reSubOnce p r s = s.take i ++ r ++ s.drop (i + len) := by
  unfold reSubOnce
  rw [h]

/-- One marker-delimited replacement, made explicit: with the start
marker at `i` and the end marker at `j`, the result is the spliced
document. -/
theorem replace_between_eq (text sM eM repl : List Char) (i j : Nat)
    (h1 : firstOcc sM text = some i)
    (h2 : firstOccFrom eM text i = some j) :
    replace_between text sM eM repl
      = Except.ok (text.take i ++ repl ++ text.drop j) := by
  unfold replace_between
  rw [h1]
  dsimp only
  rw [h2]

/-- The table-body splice, made explicit: with the open marker at `i`
and the close marker at `j`, the result replaces everything through the
end of the close marker. -/
theorem tbodySplice_eq (html t : List Char) (i j : Nat)
    (h1 : firstOcc tbodyOpen.data html = some i)
    (h2 : firstOccFrom tbodyClose.data html i = some j) :
    tbodySplice html t
      = Except.ok (html.take i ++ t
          ++ html.drop (j + tbodyClose.data.length)) := by
  unfold tbodySplice
  rw [h1]
  dsimp only
  rw [h2]

/-- One array-constant replacement, made explicit: when the declaration
pattern matches at `i` with length `len`, the result substitutes the
freshly rendered declaration. -/
theorem replace_array_const_eq (text : List Char) (cn vjs : String)
    (i len : Nat)
    (h : reFind (arrayPat cn) text = some (i, len)) :
    replace_array_const text cn vjs
      = Except.ok (text.take i
          ++ ("const " ++ cn ++ " = [" ++ vjs ++ "];").data
          ++ text.drop (i + len)) := by
  unfold replace_array_const reSubOnce
  rw [h]
  simp

set_option maxHeartbeats 20000000 in
/-- The run of `update_html` on `c4doc` computed step by step. -/
theorem c4run1_eq : update_html c4doc c4data = Except.ok c4mid := by
  simp only [update_html]
  rw [reSubOnce_eq_of_find asOfPat _ c4doc 160 39 (by decide),
    show c4doc.take 160
      ++ ("<p>Ludhiana District | Data as of "
      ++ format_as_of_date c4data.report_date ++ "</p>").data
      ++ c4doc.drop (160 + 39) = c4d1 from rfl]
  simp only [replace_between_eq c4d1 statsStart.data statsEnd.data
    (build_stats_html c4data.totals).data 306 334 (by decide) (by decide),
    show c4d1.take 306 ++ (build_stats_html c4data.totals).data ++ c4d1.drop 334 = c4d2 from rfl,
    bind_ok_eq]
  simp only [replace_between_eq c4d2 cardsStart.data cardsEnd.data
    (build_subdivision_cards_html c4data.subdivisions).data 1305 1339 (by decide) (by decide),
    show c4d2.take 1305 ++ (build_subdivision_cards_html c4data.subdivisions).data ++ c4d2.drop 1339 = c4d3 from rfl,
    bind_ok_eq]
  rw [reSubOnce_eq_of_find hdrPat _ c4d3 215 21 (by decide),
    show c4d3.take 215
      ++ ("<th>Surveyed ("
      ++ format_surveyed_header_date c4data.report_date ++ ")</th>").data
      ++ c4d3.drop (215 + 21) = c4d4 from rfl]
  simp only [tbodySplice_eq c4d4 (build_table_body_html c4data.subdivisions c4data.totals).data 270 290 (by decide) (by decide),
    show c4d4.take 270 ++ (build_table_body_html c4data.subdivisions c4data.totals).data
      ++ c4d4.drop (290 + tbodyClose.data.length) = c4d5 from rfl,
    bind_ok_eq]
  simp only [replace_array_const_eq c4d5 "subdivisions"
    (String.intercalate ", "
        (c4data.subdivisions.map (fun r => "'" ++ r.name ++ "'"))) 0 24 (by decide),
    show c4d5.take 0
      ++ ("const " ++ "subdivisions" ++ " = ["
        ++ String.intercalate ", "
        (c4data.subdivisions.map (fun r => "'" ++ r.name ++ "'")) ++ "];").data
      ++ c4d5.drop (0 + 24) = c4d6 from rfl,
    bind_ok_eq]
  simp only [replace_array_const_eq c4d6 "surveyPercentages"
    (String.intercalate ", "
        (c4data.subdivisions.map (fun r => fmt2 r.survey_percent))) 31 29 (by decide),
    show c4d6.take 31
      ++ ("const " ++ "surveyPercentages" ++ " = ["
        ++ String.intercalate ", "
        (c4data.subdivisions.map (fun r => fmt2 r.survey_percent)) ++ "];").data
      ++ c4d6.drop (31 + 29) = c4d7 from rfl,
    bind_ok_eq]
  simp only [replace_array_const_eq c4d7 "approvalPercentages"
    (String.intercalate ", "
        (c4data.subdivisions.map (fun r => fmt2 r.approval_percent))) 65 31 (by decide),
    show c4d7.take 65
      ++ ("const " ++ "approvalPercentages" ++ " = ["
        ++ String.intercalate ", "
        (c4data.subdivisions.map (fun r => fmt2 r.approval_percent)) ++ "];").data
      ++ c4d7.drop (65 + 31) = c4d8 from rfl,
    bind_ok_eq]
  simp only [replace_array_const_eq c4d8 "totalSurveyors"
    (String.intercalate ", "
        (c4data.subdivisions.map (fun r => Int.repr r.total_surveyors))) 101 26 (by decide),
    show c4d8.take 101
      ++ ("const " ++ "totalSurveyors" ++ " = ["
        ++ String.intercalate ", "
        (c4data.subdivisions.map (fun r => Int.repr r.total_surveyors)) ++ "];").data
      ++ c4d8.drop (101 + 26) = c4d9 from rfl,
    bind_ok_eq]
  simp only [replace_array_const_eq c4d9 "inField"
    (String.intercalate ", "
        (c4data.subdivisions.map (fun r => Int.repr r.in_field))) 129 19 (by decide),
    show c4d9.take 129
      ++ ("const " ++ "inField" ++ " = ["
        ++ String.intercalate ", "
        (c4data.subdivisions.map (fun r => Int.repr r.in_field)) ++ "];").data
      ++ c4d9.drop (129 + 19) = c4d10 from rfl,
    bind_ok_eq]
  simp only [replace_array_const_eq c4d10 "dailyProgress"
    (String.intercalate ", "
        (c4data.subdivisions.map (fun r => Int.repr r.surveyed_today))) 150 25 (by decide),
    show c4d10.take 150
      ++ ("const " ++ "dailyProgress" ++ " = ["
        ++ String.intercalate ", "
        (c4data.subdivisions.map (fun r => Int.repr r.surveyed_today)) ++ "];").data
      ++ c4d10.drop (150 + 25) = c4d11 from rfl,
    bind_ok_eq]
  rw [reSubOnce_eq_of_find lblPat _ c4d11 259 27 (by decide),
    show c4d11.take 259
      ++ ("label: 'Plots Surveyed ("
      ++ format_daily_chart_label c4data.report_date ++ ")'").data
      ++ c4d11.drop (259 + 27) = c4d12 from rfl]
  rfl

set_option maxHeartbeats 20000000 in
/-- The run of `update_html` on `c4mid` computed step by step. -/
theorem c4run2_eq : update_html c4mid c4data = Except.ok c4out := by
  simp only [update_html]
  rw [reSubOnce_eq_of_find asOfPat _ c4mid 177 54 (by decide),
    show c4mid.take 177
      ++ ("<p>Ludhiana District | Data as of "
      ++ format_as_of_date c4data.report_date ++ "</p>").data
      ++ c4mid.drop (177 + 54) = c4e1 from rfl]
  simp only [replace_between_eq c4e1 statsStart.data statsEnd.data
    (build_stats_html c4data.totals).data 1431 2368 (by decide) (by decide),
    show c4e1.take 1431 ++ (build_stats_html c4data.totals).data ++ c4e1.drop 2368 = c4e2 from rfl,
    bind_ok_eq]
  simp only [replace_between_eq c4e2 cardsStart.data cardsEnd.data
    (build_subdivision_cards_html c4data.subdivisions).data 2430 4302 (by decide) (by decide),
    show c4e2.take 2430 ++ (build_subdivision_cards_html c4data.subdivisions).data ++ c4e2.drop 4302 = c4e3 from rfl,
    bind_ok_eq]
  rw [reSubOnce_eq_of_find hdrPat _ c4e3 232 26 (by decide),
    show c4e3.take 232
      ++ ("<th>Surveyed ("
      ++ format_surveyed_header_date c4data.report_date ++ ")</th>").data
      ++ c4e3.drop (232 + 26) = c4e4 from rfl]
  simp only [tbodySplice_eq c4e4 (build_table_body_html c4data.subdivisions c4data.totals).data 293 1410 (by decide) (by decide),
    show c4e4.take 293 ++ (build_table_body_html c4data.subdivisions c4data.totals).data
      ++ c4e4.drop (1410 + tbodyClose.data.length) = c4e5 from rfl,
    bind_ok_eq]
  simp only [replace_array_const_eq c4e5 "subdivisions"
    (String.intercalate ", "
        (c4data.subdivisions.map (fun r => "'" ++ r.name ++ "'"))) 0 26 (by decide),
    show c4e5.take 0
      ++ ("const " ++ "subdivisions" ++ " = ["
        ++ String.intercalate ", "
        (c4data.subdivisions.map (fun r => "'" ++ r.name ++ "'")) ++ "];").data
      ++ c4e5.drop (0 + 26) = c4e6 from rfl,
    bind_ok_eq]
  simp only [replace_array_const_eq c4e6 "surveyPercentages"
    (String.intercalate ", "
        (c4data.subdivisions.map (fun r => fmt2 r.survey_percent))) 35 33 (by decide),
    show c4e6.take 35
      ++ ("const " ++ "surveyPercentages" ++ " = ["
        ++ String.intercalate ", "
        (c4data.subdivisions.map (fun r => fmt2 r.survey_percent)) ++ "];").data
      ++ c4e6.drop (35 + 33) = c4e7 from rfl,
    bind_ok_eq]
  simp only [replace_array_const_eq c4e7 "approvalPercentages"
    (String.intercalate ", "
        (c4data.subdivisions.map (fun r => fmt2 r.approval_percent))) 69 35 (by decide),
    show c4e7.take 69
      ++ ("const " ++ "approvalPercentages" ++ " = ["
        ++ String.intercalate ", "
        (c4data.subdivisions.map (fun r => fmt2 r.approval_percent)) ++ "];").data
      ++ c4e7.drop (69 + 35) = c4e8 from rfl,
    bind_ok_eq]
  simp only [replace_array_const_eq c4e8 "totalSurveyors"
    (String.intercalate ", "
        (c4data.subdivisions.map (fun r => Int.repr r.total_surveyors))) 105 27 (by decide),
    show c4e8.take 105
      ++ ("const " ++ "totalSurveyors" ++ " = ["
        ++ String.intercalate ", "
        (c4data.subdivisions.map (fun r => Int.repr r.total_surveyors)) ++ "];").data
      ++ c4e8.drop (105 + 27) = c4e9 from rfl,
    bind_ok_eq]
  simp only [replace_array_const_eq c4e9 "inField"
    (String.intercalate ", "
        (c4data.subdivisions.map (fun r => Int.repr r.in_field))) 133 20 (by decide),
    show c4e9.take 133
      ++ ("const " ++ "inField" ++ " = ["
        ++ String.intercalate ", "
        (c4data.subdivisions.map (fun r => Int.repr r.in_field)) ++ "];").data
      ++ c4e9.drop (133 + 20) = c4e10 from rfl,
    bind_ok_eq]
  simp only [replace_array_const_eq c4e10 "dailyProgress"
    (String.intercalate ", "
        (c4data.subdivisions.map (fun r => Int.repr r.surveyed_today))) 154 26 (by decide),
    show c4e10.take 154
      ++ ("const " ++ "dailyProgress" ++ " = ["
        ++ String.intercalate ", "
        (c4data.subdivisions.map (fun r => Int.repr r.surveyed_today)) ++ "];").data
      ++ c4e10.drop (154 + 26) = c4e11 from rfl,
    bind_ok_eq]
  rw [reSubOnce_eq_of_find lblPat _ c4e11 263 33 (by decide),
    show c4e11.take 263
      ++ ("label: 'Plots Surveyed ("
      ++ format_daily_chart_label c4data.report_date ++ ")'").data
      ++ c4e11.drop (263 + 33) = c4e12 from rfl]
  rfl

/-- C4: counterexample to idempotence. On the template `c4doc` with a
subdivision name containing `"];"` (the closing token of the
array-constant pattern), the first run succeeds and yields `c4mid`;
every anchor is still present in `c4mid`, so the second run succeeds
as well, but its output `c4out` already differs from `c4mid` within
the first 60 characters — the subdivisions array constant keeps a
remnant of the previous value — so rerunning is not byte-identical. -/
theorem c4_counterexample :
    update_html c4doc c4data = Except.ok c4mid
    ∧ update_html c4mid c4data = Except.ok c4out
    ∧ c4mid.take 60 ≠ c4out.take 60 :=
  ⟨c4run1_eq, c4run2_eq, by decide⟩

/-- Reassembly identity: a document equals its prefix, a middle slice,
and its suffix. -/
theorem take_slice_drop (s : List Char) (i j : Nat) (h : i ≤ j) :
    s.take i ++ slice s i j ++ s.drop j = s := by
  unfold slice
  rw [List.append_assoc]
  have hdj : s.drop j = (s.drop i).drop (j - i) := by
    rw [List.drop_drop]
    congr 1
    omega
  rw [hdj, List.take_append_drop, List.take_append_drop]

/-- A marker found at or after `i` sits at or after `i`. -/
theorem firstOccFrom_le (m s : List Char) (i j : Nat)
    (h : firstOccFrom m s i = some j) : i ≤ j := by
  unfold firstOccFrom at h
  cases hh : firstOcc m (s.drop i) with
  | none => rw [hh] at h; simp at h
  | some k =>
    rw [hh] at h
    simp at h
    omega

/-- A regex substitution whose matched segment already equals the
replacement leaves the document unchanged. -/
theorem reSubOnce_fixed (p : ReSeg) (r s : List Char) (i len : Nat)
    (hf : reFind p s = some (i, len)) (hs : slice s i (i + len) = r) :
    reSubOnce p r s = s := by
  rw [reSubOnce_eq_of_find p r s i len hf, ← hs,
    take_slice_drop s i (i + len) (Nat.le_add_right i len)]

/-- A marker-delimited replacement whose delimited segment already
equals the replacement returns the document unchanged. -/
theorem replace_between_fixed (text sM eM repl : List Char) (i j : Nat)
    (h1 : firstOcc sM text = some i)
    (h2 : firstOccFrom eM text i = some j)
    (hs : slice text i j = repl) :
    replace_between text sM eM repl = Except.ok text := by
  rw [replace_between_eq text sM eM repl i j h1 h2, ← hs,
    take_slice_drop text i j (firstOccFrom_le eM text i j h2)]

/-- A table-body splice whose replaced segment already equals the new
body returns the document unchanged. -/
theorem tbodySplice_fixed (html t : List Char) (i j : Nat)
    (h1 : firstOcc tbodyOpen.data html = some i)
    (h2 : firstOccFrom tbodyClose.data html i = some j)
    (hs : slice html i (j + tbodyClose.data.length) = t) :
    tbodySplice html t = Except.ok html := by
  rw [tbodySplice_eq html t i j h1 h2, ← hs,
    take_slice_drop html i (j + tbodyClose.data.length)
      (Nat.le_trans (firstOccFrom_le tbodyClose.data html i j h2)
        (Nat.le_add_right j tbodyClose.data.length))]

/-- An array-constant replacement whose matched declaration already
equals the rendered declaration returns the document unchanged. -/
theorem replace_array_const_fixed (text : List Char) (cn vjs : String)
    (i len : Nat)
    (hf : reFind (arrayPat cn) text = some (i, len))
    (hs : slice text i (i + len)
      = ("const " ++ cn ++ " = [" ++ vjs ++ "];").data) :
    replace_array_const text cn vjs = Except.ok text := by
  rw [replace_array_const_eq text cn vjs i len hf, ← hs,
    take_slice_drop text i (i + len) (Nat.le_add_right i len)]

/-- C4 (amended): rerunning is byte-identical exactly on already-updated
documents whose marked regions carry the replacement text verbatim:
when every anchor is found and each matched or delimited segment
already equals its replacement (as after a prior run with the same
data whose rendered values contain no marker or pattern-closing text),
`update_html` returns the document unchanged.  In general a rerun may
differ, because a rendered value can collide with an anchor pattern. -/
theorem c4_amended (doc : List Char) (data : DashData)
    (i1 n1 : Nat)
    (h1f : reFind asOfPat doc = some (i1, n1))
    (h1s : slice doc i1 (i1 + n1)
      = ("<p>Ludhiana District | Data as of "
        ++ format_as_of_date data.report_date ++ "</p>").data)
    (i2 j2 : Nat)
    (h2a : firstOcc statsStart.data doc = some i2)
    (h2b : firstOccFrom statsEnd.data doc i2 = some j2)
    (h2s : slice doc i2 j2 = (build_stats_html data.totals).data)
    (i3 j3 : Nat)
    (h3a : firstOcc cardsStart.data doc = some i3)
    (h3b : firstOccFrom cardsEnd.data doc i3 = some j3)
    (h3s : slice doc i3 j3
      = (build_subdivision_cards_html data.subdivisions).data)
    (i4 n4 : Nat)
    (h4f : reFind hdrPat doc = some (i4, n4))
    (h4s : slice doc i4 (i4 + n4)
      = ("<th>Surveyed ("
        ++ format_surveyed_header_date data.report_date ++ ")</th>").data)
    (i5 j5 : Nat)
    (h5a : firstOcc tbodyOpen.data doc = some i5)
    (h5b : firstOccFrom tbodyClose.data doc i5 = some j5)
    (h5s : slice doc i5 (j5 + tbodyClose.data.length)
      = (build_table_body_html data.subdivisions data.totals).data)
    (i6 n6 : Nat)
    (h6f : reFind (arrayPat "subdivisions") doc = some (i6, n6))
    (h6s : slice doc i6 (i6 + n6)
      = ("const " ++ "subdivisions" ++ " = ["
        ++ String.intercalate ", "
          (data.subdivisions.map (fun r => "'" ++ r.name ++ "'")) ++ "];").data)
    (i7 n7 : Nat)
    (h7f : reFind (arrayPat "surveyPercentages") doc = some (i7, n7))
    (h7s : slice doc i7 (i7 + n7)
      = ("const " ++ "surveyPercentages" ++ " = ["
        ++ String.intercalate ", "
          (data.subdivisions.map (fun r => fmt2 r.survey_percent)) ++ "];").data)
    (i8 n8 : Nat)
    (h8f : reFind (arrayPat "approvalPercentages") doc = some (i8, n8))
    (h8s : slice doc i8 (i8 + n8)
      = ("const " ++ "approvalPercentages" ++ " = ["
        ++ String.intercalate ", "
          (data.subdivisions.map (fun r => fmt2 r.approval_percent)) ++ "];").data)
    (i9 n9 : Nat)
    (h9f : reFind (arrayPat "totalSurveyors") doc = some (i9, n9))
    (h9s : slice doc i9 (i9 + n9)
      = ("const " ++ "totalSurveyors" ++ " = ["
        ++ String.intercalate ", "
          (data.subdivisions.map (fun r => Int.repr r.total_surveyors)) ++ "];").data)
    (i10 n10 : Nat)
    (h10f : reFind (arrayPat "inField") doc = some (i10, n10))
    (h10s : slice doc i10 (i10 + n10)
      = ("const " ++ "inField" ++ " = ["
        ++ String.intercalate ", "
          (data.subdivisions.map (fun r => Int.repr r.in_field)) ++ "];").data)
    (i11 n11 : Nat)
    (h11f : reFind (arrayPat "dailyProgress") doc = some (i11, n11))
    (h11s : slice doc i11 (i11 + n11)
      = ("const " ++ "dailyProgress" ++ " = ["
        ++ String.intercalate ", "
          (data.subdivisions.map (fun r => Int.repr r.surveyed_today)) ++ "];").data)
    (i12 n12 : Nat)
    (h12f : reFind lblPat doc = some (i12, n12))
    (h12s : slice doc i12 (i12 + n12)
      = ("label: 'Plots Surveyed ("
        ++ format_daily_chart_label data.report_date ++ ")'").data) :
    update_html doc data = Except.ok doc := by
  simp only [update_html]
  rw [reSubOnce_fixed asOfPat _ doc i1 n1 h1f h1s]
  simp only [replace_between_fixed doc statsStart.data statsEnd.data _
    i2 j2 h2a h2b h2s, bind_ok_eq]
  simp only [replace_between_fixed doc cardsStart.data cardsEnd.data _
    i3 j3 h3a h3b h3s, bind_ok_eq]
  rw [reSubOnce_fixed hdrPat _ doc i4 n4 h4f h4s]
  simp only [tbodySplice_fixed doc _ i5 j5 h5a h5b h5s, bind_ok_eq]
  simp only [replace_array_const_fixed doc "subdivisions" _ i6 n6 h6f h6s,
    bind_ok_eq]
  simp only [replace_array_const_fixed doc "surveyPercentages" _ i7 n7 h7f h7s,
    bind_ok_eq]
  simp only [replace_array_const_fixed doc "approvalPercentages" _ i8 n8 h8f h8s,
    bind_ok_eq]
  simp only [replace_array_const_fixed doc "totalSurveyors" _ i9 n9 h9f h9s,
    bind_ok_eq]
  simp only [replace_array_const_fixed doc "inField" _ i10 n10 h10f h10s,
    bind_ok_eq]
  simp only [replace_array_const_fixed doc "dailyProgress" _ i11 n11 h11f h11s,
    bind_ok_eq]
  rw [reSubOnce_fixed lblPat _ doc i12 n12 h12f h12s]

set_option maxHeartbeats 20000000 in
/-- Witness for the amended C4: on the already-updated document `c4fix`
for the empty data snapshot, every hypothesis holds at the concrete
indices and a rerun returns `c4fix` unchanged. -/
theorem c4_amended_witness :
    update_html c4fix emptyDash = Except.ok c4fix :=
  c4_amended c4fix emptyDash
    160 54 (by decide) (by decide)
    934 1871 (by decide) (by decide) (by decide)
    1933 1978 (by decide) (by decide) (by decide)
    215 26 (by decide) (by decide)
    276 913 (by decide) (by decide) (by decide)
    0 24 (by decide) (by decide)
    25 29 (by decide) (by decide)
    55 31 (by decide) (by decide)
    87 26 (by decide) (by decide)
    114 19 (by decide) (by decide)
    134 25 (by decide) (by decide)
    242 33 (by decide) (by decide)

end DcsDash
